import Mathlib

/-!
Verification of the reddit-mining dashboard's API layer.

This file gives a shallow embedding, in Lean, of the route handlers of the
repository (the pain-point listing and detail endpoints, the stats endpoint
and the subreddit CRUD endpoints) together with the pieces of JavaScript /
SQLite semantics they rely on (`parseInt`, `parseFloat`, `JSON.parse`,
`String.prototype.split`, `toLowerCase`, SQL `LIKE`, `IN`, left joins on
key-unique tables, `ORDER BY` / `LIMIT` / `OFFSET`), and proves or refutes
the frozen claims about them.

Modelling conventions:
* SQL `text` columns are `String` (`Option String` when nullable), `integer`
  columns are `Int`, `real` columns are `Rat`, booleans are `Bool`.
* A database is a record of lists of rows.  Left joins are resolved with
  `List.find?`; the joined-to columns (`posts.id`, `subreddits.id`,
  `industries.code`, `pain_point_types.code`) are primary keys, so a join
  matches at most one row.
* `ORDER BY` is modelled with `List.insertionSort`; SQL leaves the relative
  order of ties unspecified, and no claim below depends on tie order.
* JavaScript `NaN` (from `parseInt` / `parseFloat` on garbage) is modelled
  as `Option.none`; SQLite turns a bound `NaN` into `NULL`, and `LIMIT` /
  `OFFSET NULL` raises an error that the handlers catch and turn into a
  `DATABASE_ERROR` response.
-/

/-! ## JavaScript and SQLite primitives -/

/-- Digit test for the ASCII digits 0-9. -/
def isDigitChar (c : Char) : Bool :=
  48 ≤ c.toNat && c.toNat ≤ 57

/-- JavaScript whitespace accepted by `parseInt` / `parseFloat`. -/
def jsWsChar (c : Char) : Bool :=
  c == ' ' || c == '\t' || c == '\n' || c == '\r'

/-- Value of a list of ASCII digit characters, most significant first. -/
def digitsToNat (ds : List Char) : Nat :=
  ds.foldl (fun acc c => acc * 10 + (c.toNat - 48)) 0

/-- Model of JavaScript `parseInt(s, 10)`: skip leading whitespace, read an
optional sign and then the longest prefix of decimal digits; `none` models
the `NaN` result when no digit is found. -/
def jsParseInt (s : String) : Option Int :=
  let cs := s.data.dropWhile jsWsChar
  let signAndRest : Int × List Char :=
    match cs with
    | '-' :: r => (-1, r)
    | '+' :: r => (1, r)
    | _ => (1, cs)
  let ds := signAndRest.2.takeWhile isDigitChar
  if ds.isEmpty then none
  else some (signAndRest.1 * (digitsToNat ds : Int))

/-- Model of JavaScript `parseFloat`: longest valid decimal-literal prefix
(sign, integer digits, optional fraction, optional exponent); `none` models
`NaN` when no digit is found at the front. -/
def jsParseFloat (s : String) : Option Rat :=
  let cs := s.data.dropWhile jsWsChar
  let signAndRest : Int × List Char :=
    match cs with
    | '-' :: r => (-1, r)
    | '+' :: r => (1, r)
    | _ => (1, cs)
  let intDs := signAndRest.2.takeWhile isDigitChar
  let afterInt := signAndRest.2.dropWhile isDigitChar
  let fracDs : List Char :=
    match afterInt with
    | '.' :: r => r.takeWhile isDigitChar
    | _ => []
  let afterFrac : List Char :=
    match afterInt with
    | '.' :: r => r.dropWhile isDigitChar
    | _ => afterInt
  if intDs.isEmpty && fracDs.isEmpty then none
  else
    let expVal : Int :=
      match afterFrac with
      | 'e' :: r =>
        match r with
        | '-' :: r2 => if (r2.takeWhile isDigitChar).isEmpty then 0
                       else -(digitsToNat (r2.takeWhile isDigitChar) : Int)
        | '+' :: r2 => if (r2.takeWhile isDigitChar).isEmpty then 0
                       else (digitsToNat (r2.takeWhile isDigitChar) : Int)
        | _ => if (r.takeWhile isDigitChar).isEmpty then 0
               else (digitsToNat (r.takeWhile isDigitChar) : Int)
      | 'E' :: r =>
        match r with
        | '-' :: r2 => if (r2.takeWhile isDigitChar).isEmpty then 0
                       else -(digitsToNat (r2.takeWhile isDigitChar) : Int)
        | '+' :: r2 => if (r2.takeWhile isDigitChar).isEmpty then 0
                       else (digitsToNat (r2.takeWhile isDigitChar) : Int)
        | _ => if (r.takeWhile isDigitChar).isEmpty then 0
               else (digitsToNat (r.takeWhile isDigitChar) : Int)
      | _ => 0
    let m : Int := signAndRest.1 * ((digitsToNat intDs * 10 ^ fracDs.length + digitsToNat fracDs : Nat) : Int)
    if 0 ≤ expVal then some (mkRat (m * (10 ^ expVal.toNat : Nat)) (10 ^ fracDs.length))
    else some (mkRat m (10 ^ fracDs.length * 10 ^ (-expVal).toNat))

/-- ASCII lower-casing of one character, as both JavaScript `toLowerCase`
(on ASCII input) and SQLite's `LIKE` case folding perform it. -/
def asciiLowerChar (c : Char) : Char :=
  if 65 ≤ c.toNat && c.toNat ≤ 90 then Char.ofNat (c.toNat + 32) else c

/-- ASCII lower-casing of a string. -/
def asciiLower (s : String) : String :=
  ⟨s.data.map asciiLowerChar⟩

/-- Character class of the subreddit-name validation pattern: letter, digit
or underscore. -/
def isWordChar (c : Char) : Bool :=
  (65 ≤ c.toNat && c.toNat ≤ 90) || (97 ≤ c.toNat && c.toNat ≤ 122) ||
    isDigitChar c || c == '_'

/-- Lower-case letter, digit or underscore. -/
def isLowerWordChar (c : Char) : Bool :=
  (97 ≤ c.toNat && c.toNat ≤ 122) || isDigitChar c || c == '_'

/-- SQLite `LIKE` matching on character lists, with fuel that makes the
recursion structural: `%` matches any sequence, `_` any single character,
and letters compare ASCII-case-insensitively.  Every recursive call shrinks
`ps.length + ts.length`, so fuel `ps.length + ts.length + 1` is exact. -/
def likeMatchFuel : Nat → List Char → List Char → Bool
  | 0, _, _ => false
  | fuel + 1, ps0, ts0 =>
    match ps0, ts0 with
    | [], [] => true
    | [], _ :: _ => false
    | '%' :: ps, [] => likeMatchFuel fuel ps []
    | '%' :: ps, t :: ts =>
      likeMatchFuel fuel ps (t :: ts) || likeMatchFuel fuel ('%' :: ps) ts
    | '_' :: ps, _ :: ts => likeMatchFuel fuel ps ts
    | '_' :: _, [] => false
    | p :: ps, t :: ts => (asciiLowerChar p == asciiLowerChar t) && likeMatchFuel fuel ps ts
    | _ :: _, [] => false

/-- SQLite `LIKE` on character lists. -/
def likeMatchL (ps ts : List Char) : Bool :=
  likeMatchFuel (ps.length + ts.length + 1) ps ts

/-- SQLite `LIKE` on strings. -/
def likeMatch (pat txt : String) : Bool :=
  likeMatchL pat.data txt.data

/-- Split a character list at every occurrence of a separator character;
matches JavaScript `String.prototype.split` with a one-character separator. -/
def splitChar (sep : Char) : List Char → List (List Char)
  | [] => [[]]
  | c :: rest =>
    let r := splitChar sep rest
    if c == sep then [] :: r
    else
      match r with
      | g :: gs => (c :: g) :: gs
      | [] => [[c]]

/-- JavaScript `s.split(",")`. -/
def jsSplitComma (s : String) : List String :=
  (splitChar ',' s.data).map (fun cs => ⟨cs⟩)

/-- Byte-lexicographic string comparison on character lists, as SQLite's
default BINARY collation orders text values. -/
def charListLe : List Char → List Char → Bool
  | [], _ => true
  | _ :: _, [] => false
  | a :: as, b :: bs =>
    if a.toNat < b.toNat then true
    else if b.toNat < a.toNat then false
    else charListLe as bs

/-- BINARY-collation comparison on strings. -/
def strLe (a b : String) : Bool :=
  charListLe a.data b.data

/-- Left-to-right total order on nullable integers as SQLite sorts them
ascending: `NULL` before every value. -/
def optIntLe : Option Int → Option Int → Bool
  | none, _ => true
  | some _, none => false
  | some a, some b => a ≤ b

/-- Value of `str || default` for JavaScript strings: the string itself
unless it is absent or empty (falsy), in which case the default. -/
def jsOrElse (s : Option String) (d : String) : String :=
  match s with
  | some v => if v = "" then d else v
  | none => d

/-! ## JSON values and `JSON.parse` -/

/-- JSON values as `JSON.parse` produces them. -/
inductive Json where
  | null
  | bool (b : Bool)
  | num (q : Rat)
  | str (s : String)
  | arr (elems : List Json)
  | obj (members : List (String × Json))

/-- JSON whitespace. -/
def jsonWs (c : Char) : Bool :=
  c == ' ' || c == '\t' || c == '\n' || c == '\r'

/-- Value of a hexadecimal digit. -/
def hexVal (c : Char) : Option Nat :=
  if 48 ≤ c.toNat && c.toNat ≤ 57 then some (c.toNat - 48)
  else if 97 ≤ c.toNat && c.toNat ≤ 102 then some (c.toNat - 87)
  else if 65 ≤ c.toNat && c.toNat ≤ 70 then some (c.toNat - 55)
  else none

/-- Value of four hexadecimal digits. -/
def hex4 (a b c d : Char) : Option Nat :=
  match hexVal a, hexVal b, hexVal c, hexVal d with
  | some x, some y, some z, some w => some (((x * 16 + y) * 16 + z) * 16 + w)
  | _, _, _, _ => none

/-- Body of a JSON string literal after the opening quote: returns the
decoded characters and the input following the closing quote.  Handles the
JSON escapes including `\uXXXX` with surrogate-pair combination. -/
def parseStringChars : List Char → Option (List Char × List Char)
  | [] => none
  | '"' :: rest => some ([], rest)
  | '\\' :: rest =>
    (match rest with
     | 'u' :: a :: b :: c :: d :: rest2 =>
       (match hex4 a b c d with
        | none => none
        | some h =>
          if 0xD800 ≤ h && h ≤ 0xDBFF then
            (match rest2 with
             | '\\' :: 'u' :: a2 :: b2 :: c2 :: d2 :: rest3 =>
               (match hex4 a2 b2 c2 d2 with
                | none => none
                | some l =>
                  if 0xDC00 ≤ l && l ≤ 0xDFFF then
                    (match parseStringChars rest3 with
                     | some (cs, r) =>
                       some (Char.ofNat (0x10000 + (h - 0xD800) * 0x400 + (l - 0xDC00)) :: cs, r)
                     | none => none)
                  else none)
             | _ => none)
          else if 0xDC00 ≤ h && h ≤ 0xDFFF then none
          else
            (match parseStringChars rest2 with
             | some (cs, r) => some (Char.ofNat h :: cs, r)
             | none => none))
     | e :: rest2 =>
       (match
          (if e == '"' then some '"'
           else if e == '\\' then some '\\'
           else if e == '/' then some '/'
           else if e == 'b' then some (Char.ofNat 8)
           else if e == 'f' then some (Char.ofNat 12)
           else if e == 'n' then some '\n'
           else if e == 'r' then some '\r'
           else if e == 't' then some '\t'
           else none) with
        | some c =>
          (match parseStringChars rest2 with
           | some (cs, r) => some (c :: cs, r)
           | none => none)
        | none => none)
     | [] => none)
  | c :: rest =>
    if c.toNat < 32 then none
    else
      (match parseStringChars rest with
       | some (cs, r) => some (c :: cs, r)
       | none => none)

/-- JSON number literal at the front of the input, returning its exact
rational value and the rest of the input. -/
def parseJsonNumber (cs : List Char) : Option (Rat × List Char) :=
  let negAndRest : Bool × List Char :=
    match cs with
    | '-' :: r => (true, r)
    | _ => (false, cs)
  let intDs := negAndRest.2.takeWhile isDigitChar
  if intDs.isEmpty then none
  else if intDs.length > 1 && intDs.headD '0' == '0' then none
  else
    let afterInt := negAndRest.2.dropWhile isDigitChar
    let fracRes : Option (List Char × List Char) :=
      match afterInt with
      | '.' :: r =>
        if (r.takeWhile isDigitChar).isEmpty then none
        else some (r.takeWhile isDigitChar, r.dropWhile isDigitChar)
      | _ => some ([], afterInt)
    match fracRes with
    | none => none
    | some (fracDs, afterFrac) =>
      let expRes : Option (Int × List Char) :=
        match afterFrac with
        | 'e' :: r =>
          (match r with
           | '-' :: r2 => if (r2.takeWhile isDigitChar).isEmpty then none
                          else some (-(digitsToNat (r2.takeWhile isDigitChar) : Int), r2.dropWhile isDigitChar)
           | '+' :: r2 => if (r2.takeWhile isDigitChar).isEmpty then none
                          else some ((digitsToNat (r2.takeWhile isDigitChar) : Int), r2.dropWhile isDigitChar)
           | _ => if (r.takeWhile isDigitChar).isEmpty then none
                  else some ((digitsToNat (r.takeWhile isDigitChar) : Int), r.dropWhile isDigitChar))
        | 'E' :: r =>
          (match r with
           | '-' :: r2 => if (r2.takeWhile isDigitChar).isEmpty then none
                          else some (-(digitsToNat (r2.takeWhile isDigitChar) : Int), r2.dropWhile isDigitChar)
           | '+' :: r2 => if (r2.takeWhile isDigitChar).isEmpty then none
                          else some ((digitsToNat (r2.takeWhile isDigitChar) : Int), r2.dropWhile isDigitChar)
           | _ => if (r.takeWhile isDigitChar).isEmpty then none
                  else some ((digitsToNat (r.takeWhile isDigitChar) : Int), r.dropWhile isDigitChar))
        | _ => some (0, afterFrac)
      match expRes with
      | none => none
      | some (e, rest) =>
        let sign : Int := if negAndRest.1 then -1 else 1
        let m : Int := sign * ((digitsToNat intDs * 10 ^ fracDs.length + digitsToNat fracDs : Nat) : Int)
        let q : Rat :=
          if 0 ≤ e then mkRat (m * (10 ^ e.toNat : Nat)) (10 ^ fracDs.length)
          else mkRat m (10 ^ fracDs.length * 10 ^ (-e).toNat)
        some (q, rest)

/-- Opening-brace character, written via its code point. -/
def lbrace : Char := Char.ofNat 123

/-- Closing-brace character, written via its code point. -/
def rbrace : Char := Char.ofNat 125

/-- Task tag for the recursive-descent JSON parser: parse one value, the
element list of an array, or the member list of an object. -/
inductive JTask where
  | value
  | elems
  | members

/-- Result of one parser task. -/
inductive JResult where
  | value (j : Json)
  | elems (es : List Json)
  | members (ms : List (String × Json))

/-- Fuelled recursive-descent JSON parser; the three mutually recursive
productions are folded into one function that is structurally recursive on
the fuel, so that it reduces definitionally. -/
def parseJsonAux : Nat → JTask → List Char → Option (JResult × List Char)
  | 0, _, _ => none
  | fuel + 1, .value, cs0 =>
    let cs := cs0.dropWhile jsonWs
    (match cs with
     | 'n' :: 'u' :: 'l' :: 'l' :: r => some (.value .null, r)
     | 't' :: 'r' :: 'u' :: 'e' :: r => some (.value (.bool true), r)
     | 'f' :: 'a' :: 'l' :: 's' :: 'e' :: r => some (.value (.bool false), r)
     | '"' :: r =>
       (match parseStringChars r with
        | some (body, r2) => some (.value (.str ⟨body⟩), r2)
        | none => none)
     | '[' :: r =>
       let r2 := r.dropWhile jsonWs
       (match r2 with
        | ']' :: r3 => some (.value (.arr []), r3)
        | _ =>
          (match parseJsonAux fuel .elems r2 with
           | some (.elems es, r3) => some (.value (.arr es), r3)
           | _ => none))
     | c :: _ =>
       if c == lbrace then
         let r2 := cs.tail.dropWhile jsonWs
         (match r2 with
          | c2 :: r3 =>
            if c2 == rbrace then some (.value (.obj []), r3)
            else
              (match parseJsonAux fuel .members r2 with
               | some (.members ms, r4) => some (.value (.obj ms), r4)
               | _ => none)
          | [] => none)
       else
         (match parseJsonNumber cs with
          | some (q, r2) => some (.value (.num q), r2)
          | none => none)
     | [] => none)
  | fuel + 1, .elems, cs =>
    (match parseJsonAux fuel .value cs with
     | some (.value v, r) =>
       (match r.dropWhile jsonWs with
        | ',' :: r3 =>
          (match parseJsonAux fuel .elems r3 with
           | some (.elems vs, r4) => some (.elems (v :: vs), r4)
           | _ => none)
        | ']' :: r3 => some (.elems [v], r3)
        | _ => none)
     | _ => none)
  | fuel + 1, .members, cs0 =>
    let cs := cs0.dropWhile jsonWs
    (match cs with
     | '"' :: r =>
       (match parseStringChars r with
        | none => none
        | some (key, r1) =>
          (match r1.dropWhile jsonWs with
           | ':' :: r2 =>
             (match parseJsonAux fuel .value r2 with
              | some (.value v, r3) =>
                (match r3.dropWhile jsonWs with
                 | ',' :: r4 =>
                   (match parseJsonAux fuel .members r4 with
                    | some (.members ms, r5) => some (.members ((⟨key⟩, v) :: ms), r5)
                    | _ => none)
                 | c :: r4 =>
                   if c == rbrace then some (.members [(⟨key⟩, v)], r4) else none
                 | [] => none)
              | _ => none)
           | _ => none))
     | _ => none)

namespace JSON

/-- Model of `JSON.parse`: parse one value and require only whitespace to
remain; `none` models the thrown `SyntaxError`. -/
def parse (s : String) : Option Json :=
  match parseJsonAux (4 * s.data.length + 4) .value s.data with
  | some (.value v, rest) => if (rest.dropWhile jsonWs).isEmpty then some v else none
  | _ => none

end JSON

/-- JavaScript property read `v[k]` on a parsed JSON value: the member of an
object (last duplicate wins, as `JSON.parse` keeps the last), `undefined`
(`none`) on everything else. -/
def jsMember (j : Json) (k : String) : Option Json :=
  match j with
  | .obj ms => (ms.reverse.find? (fun m => m.1 == k)).map (fun m => m.2)
  | _ => none

/-- Optional chaining `o?.[k]` where `o` may already be `undefined` (`none`)
or JSON `null`. -/
def jsChain (o : Option Json) (k : String) : Option Json :=
  match o with
  | none => none
  | some .null => none
  | some v => jsMember v k

/-- JavaScript truthiness of a JSON value. -/
def jsTruthy : Json → Bool
  | .null => false
  | .bool b => b
  | .num q => q ≠ 0
  | .str s => s ≠ ""
  | .arr _ => true
  | .obj _ => true

/-- Value of `expr || ""` where `expr` is a possibly-`undefined` JSON value. -/
def jsOrEmptyStr (o : Option Json) : Json :=
  match o with
  | some v => if jsTruthy v then v else .str ""
  | none => .str ""

/-! ## Data model (src/lib/db/schema.ts) -/

/-- Row of the `subreddits` table. -/
structure Subreddit where
  id : String
  name : String
  displayName : Option String
  description : Option String
  isActive : Bool
  fetchFrequency : String
  postsLimit : Int
  lastFetchedAt : Option String
  createdAt : String
  updatedAt : String
deriving Repr, DecidableEq

/-- Row of the `posts` table. -/
structure Post where
  id : String
  subredditId : Option String
  redditId : String
  title : String
  content : Option String
  author : Option String
  url : String
  score : Int
  numComments : Int
  redditCreatedAt : String
  processStatus : String
  processedAt : Option String
  createdAt : String
deriving Repr, DecidableEq

/-- Row of the `pain_points` table. -/
structure PainPoint where
  id : String
  postId : Option String
  title : String
  description : String
  userNeed : Option String
  currentSolution : Option String
  idealSolution : Option String
  mentionedCompetitors : Option String
  quotes : Option String
  targetPersonas : Option String
  actionableInsights : Option String
  industryCode : Option String
  typeCode : Option String
  confidence : Rat
  totalScore : Rat
  scoreUrgency : Int
  scoreFrequency : Int
  scoreMarketSize : Int
  scoreMonetization : Int
  scoreBarrierToEntry : Int
  dimensionReasons : Option String
  createdAt : String
  updatedAt : String
deriving Repr, DecidableEq

/-- Row of the `industries` lookup table. -/
structure Industry where
  code : String
  name : String
  description : Option String
  sortOrder : Int
deriving Repr, DecidableEq

/-- Row of the `pain_point_types` lookup table. -/
structure PainPointType where
  code : String
  name : String
  description : Option String
  sortOrder : Int
deriving Repr, DecidableEq

/-- Row of the `pain_point_tags` association table. -/
structure PainPointTag where
  painPointId : String
  tagId : String
deriving Repr, DecidableEq

/-- Database state: one list of rows per table relevant to the verified
endpoints (the `tags` table itself is not consulted by any claim). -/
structure DB where
  subreddits : List Subreddit
  posts : List Post
  painPoints : List PainPoint
  industries : List Industry
  painPointTypes : List PainPointType
  painPointTags : List PainPointTag
deriving Repr, DecidableEq

/-- Uniform API result: `ok` mirrors `successResponse`, `err code` mirrors
`errorResponse` with the given error code from `src/lib/api/response.ts`. -/
inductive ApiResult (α : Type) where
  | ok (data : α)
  | err (code : String)
deriving Repr, DecidableEq

/-! ## Pain-point listing endpoint (GET /api/pain-points) -/

/-- Query parameters of the listing request, each as
`searchParams.get(...)` returns it (`none` when absent). -/
structure ListingReq where
  page : Option String
  limit : Option String
  perPage : Option String
  search : Option String
  industry : Option String
  typeFilter : Option String
  subreddit : Option String
  scoreMin : Option String
  scoreMax : Option String
  sortParam : Option String
  orderParam : Option String
deriving Repr, DecidableEq

/-- Listing request with every parameter absent. -/
def emptyReq : ListingReq :=
  ⟨none, none, none, none, none, none, none, none, none, none, none⟩

/-- JavaScript `Math.max(a, x)` where `x` may be `NaN` (`none`). -/
def jsMaxI (a : Int) : Option Int → Option Int
  | none => none
  | some x => some (max a x)

/-- JavaScript `Math.min(a, x)` where `x` may be `NaN` (`none`). -/
def jsMinI (a : Int) : Option Int → Option Int
  | none => none
  | some x => some (min a x)

/-- Effective page number: `Math.max(1, parseInt(searchParams.get("page") || "1", 10))`;
`none` models the `NaN` produced by an unparsable parameter. -/
def effectivePage (req : ListingReq) : Option Int :=
  jsMaxI 1 (jsParseInt (jsOrElse req.page "1"))

/-- Effective page size:
`Math.min(100, Math.max(1, parseInt(limit || per_page || "20", 10)))`. -/
def effectivePerPage (req : ListingReq) : Option Int :=
  jsMinI 100 (jsMaxI 1 (jsParseInt (jsOrElse req.limit (jsOrElse req.perPage "20"))))

/-- Row of the five-table left join built by the listing page query; each
join target is looked up by its primary key. -/
structure JoinedRow where
  painPoint : PainPoint
  post : Option Post
  subreddit : Option Subreddit
  industry : Option Industry
  painPointType : Option PainPointType
deriving Repr, DecidableEq

/-- Resolve the left joins for one pain point:
`posts` on `painPoints.postId = posts.id`, `subreddits` on
`posts.subredditId = subreddits.id`, `industries` on
`painPoints.industryCode = industries.code` and `pain_point_types` on
`painPoints.typeCode = painPointTypes.code`; a `NULL` join key matches
nothing. -/
def joinedRow (s : DB) (pp : PainPoint) : JoinedRow :=
  let post : Option Post :=
    match pp.postId with
    | some pid => s.posts.find? (fun p => p.id == pid)
    | none => none
  let sub : Option Subreddit :=
    match post with
    | some p =>
      (match p.subredditId with
       | some sid => s.subreddits.find? (fun su => su.id == sid)
       | none => none)
    | none => none
  let ind : Option Industry :=
    match pp.industryCode with
    | some c => s.industries.find? (fun i => i.code == c)
    | none => none
  let pt : Option PainPointType :=
    match pp.typeCode with
    | some c => s.painPointTypes.find? (fun t => t.code == c)
    | none => none
  ⟨pp, post, sub, ind, pt⟩

/-- Rows of the listing page query before filtering. -/
def listingRows (s : DB) : List JoinedRow :=
  s.painPoints.map (joinedRow s)

/-- Search condition:
`or(like(painPoints.title, "%q%"), like(painPoints.description, "%q%"))`. -/
def condSearch (q : String) (pp : PainPoint) : Bool :=
  likeMatch ("%" ++ q ++ "%") pp.title || likeMatch ("%" ++ q ++ "%") pp.description

/-- Industry condition: `painPoints.industryCode IN (split industry ",")`;
SQL `IN` is false on a `NULL` column. -/
def condIndustry (f : String) (pp : PainPoint) : Bool :=
  match pp.industryCode with
  | some c => (jsSplitComma f).contains c
  | none => false

/-- Type condition: `painPoints.typeCode IN (split type ",")`. -/
def condType (f : String) (pp : PainPoint) : Bool :=
  match pp.typeCode with
  | some c => (jsSplitComma f).contains c
  | none => false

/-- Minimum-score condition `gte(painPoints.totalScore, parseFloat(scoreMin))`;
a `NaN` bound binds as SQL `NULL`, making the comparison false. -/
def condScoreMin (f : String) (pp : PainPoint) : Bool :=
  match jsParseFloat f with
  | some q => decide (q ≤ pp.totalScore)
  | none => false

/-- Maximum-score condition `lte(painPoints.totalScore, parseFloat(scoreMax))`. -/
def condScoreMax (f : String) (pp : PainPoint) : Bool :=
  match jsParseFloat f with
  | some q => decide (pp.totalScore ≤ q)
  | none => false

/-- The `conditions` array of the handler, in push order; every element
reads only `pain_points` columns. -/
def conditions (req : ListingReq) : List (PainPoint → Bool) :=
  (match req.search with
   | some q => if q = "" then [] else [condSearch q]
   | none => []) ++
  (match req.industry with
   | some f => if f = "" then [] else [condIndustry f]
   | none => []) ++
  (match req.typeFilter with
   | some f => if f = "" then [] else [condType f]
   | none => []) ++
  (match req.scoreMin with
   | some f => if f = "" then [] else [condScoreMin f]
   | none => []) ++
  (match req.scoreMax with
   | some f => if f = "" then [] else [condScoreMax f]
   | none => [])

/-- Subreddit-name condition of the page query:
`subreddits.name IN (split subreddit ",")` over the left-joined subreddit;
false when the join produced `NULL`. -/
def condSubreddit (f : String) (r : JoinedRow) : Bool :=
  match r.subreddit with
  | some sub => (jsSplitComma f).contains sub.name
  | none => false

/-- Effective `WHERE` clause of the page query.  The handler calls `.where`
on the same drizzle builder twice (once with `and(...conditions)`, once with
the subreddit `IN` clause); a drizzle select builder stores a single where
clause and each `.where` call replaces the previous one (the handler defeats
the type-level single-call guard with an `as typeof baseQuery` cast), so a
supplied subreddit filter replaces the composed conditions. -/
def effectiveWhere (req : ListingReq) : Option (JoinedRow → Bool) :=
  let afterConds : Option (JoinedRow → Bool) :=
    if (conditions req).isEmpty then none
    else some (fun r => (conditions req).all (fun c => c r.painPoint))
  match req.subreddit with
  | some f => if f = "" then afterConds else some (condSubreddit f)
  | none => afterConds

/-- Sort keys reachable from the handler's `orderBy` resolution. -/
inductive SortKey where
  | totalScore
  | confidence
  | createdAt
  | postScore
  | postComments
deriving Repr, DecidableEq

/-- Sort directions. -/
inductive SortDir where
  | asc
  | desc
deriving Repr, DecidableEq

/-- Resolution of the `sort` / `order` parameters into one ORDER BY key and
direction: the new style (`sort` a field name plus `order`) takes precedence
for the three recognised field names, otherwise the legacy combined values
are matched, with descending creation time as the default. -/
def resolveSort (sortP orderP : Option String) : SortKey × SortDir :=
  let sort := jsOrElse sortP "created_at_desc"
  let order := jsOrElse orderP "desc"
  if sort = "total_score" ∨ sort = "confidence" ∨ sort = "created_at" then
    let dir := if order = "asc" then SortDir.asc else SortDir.desc
    (if sort = "total_score" then .totalScore
     else if sort = "confidence" then .confidence
     else .createdAt, dir)
  else
    match sort with
    | "score_desc" => (.totalScore, .desc)
    | "score_asc" => (.totalScore, .asc)
    | "confidence_desc" => (.confidence, .desc)
    | "confidence_asc" => (.confidence, .asc)
    | "created_at_asc" => (.createdAt, .asc)
    | "reddit_score_desc" => (.postScore, .desc)
    | "comments_desc" => (.postComments, .desc)
    | _ => (.createdAt, .desc)

/-- Ascending comparison of two joined rows under one sort key; nullable
post columns order as SQLite puts `NULL` first ascending. -/
def keyLe (k : SortKey) (a b : JoinedRow) : Bool :=
  match k with
  | .totalScore => decide (a.painPoint.totalScore ≤ b.painPoint.totalScore)
  | .confidence => decide (a.painPoint.confidence ≤ b.painPoint.confidence)
  | .createdAt => strLe a.painPoint.createdAt b.painPoint.createdAt
  | .postScore => optIntLe (a.post.map (fun p => p.score)) (b.post.map (fun p => p.score))
  | .postComments => optIntLe (a.post.map (fun p => p.numComments)) (b.post.map (fun p => p.numComments))

/-- Comparison realising the resolved ORDER BY clause. -/
def rowLe (kd : SortKey × SortDir) (a b : JoinedRow) : Bool :=
  match kd.2 with
  | .asc => keyLe kd.1 a b
  | .desc => keyLe kd.1 b a

/-- Filtered, sorted rows of the page query before LIMIT/OFFSET. -/
def sortedRows (s : DB) (req : ListingReq) : List JoinedRow :=
  let rows := listingRows s
  let filtered :=
    match effectiveWhere req with
    | some w => rows.filter w
    | none => rows
  filtered.insertionSort (fun a b => rowLe (resolveSort req.sortParam req.orderParam) a b = true)

/-- Row of the three-table join of the separate count query. -/
structure CountRow where
  painPoint : PainPoint
  post : Option Post
  subreddit : Option Subreddit
deriving Repr, DecidableEq

/-- Left joins of the count query (pain points to posts to subreddits). -/
def countRow (s : DB) (pp : PainPoint) : CountRow :=
  let post : Option Post :=
    match pp.postId with
    | some pid => s.posts.find? (fun p => p.id == pid)
    | none => none
  let sub : Option Subreddit :=
    match post with
    | some p =>
      (match p.subredditId with
       | some sid => s.subreddits.find? (fun su => su.id == sid)
       | none => none)
    | none => none
  ⟨pp, post, sub⟩

/-- Total reported by the listing endpoint: the count query applies
`and(...conditions)` when any condition was pushed and no clause otherwise;
the subreddit filter is never part of it. -/
def countTotal (s : DB) (req : ListingReq) : Nat :=
  ((s.painPoints.map (countRow s)).filter
    (fun r =>
      if (conditions req).isEmpty then true
      else (conditions req).all (fun c => c r.painPoint))).length

/-- Integer scores of the five dimension columns as the listing returns
them. -/
structure DimScores where
  urgency : Int
  frequency : Int
  market_size : Int
  monetization : Int
  barrier_to_entry : Int
deriving Repr, DecidableEq

/-- Flattened reason strings of the listing's `dimension_reasons` object;
each field carries the JSON value of `parsed.<dim>?.reason || ""`. -/
structure ReasonsMap where
  urgency : Json
  frequency : Json
  market_size : Json
  monetization : Json
  barrier_to_entry : Json

/-- Helper of both endpoints: `if (!field) return null; try JSON.parse
catch return null`. -/
def parseJsonField (field : Option String) : Option Json :=
  match field with
  | none => none
  | some s => if s = "" then none else JSON.parse s

/-- Reason value of one dimension in the listing:
`parsed.<k>?.reason || ""` for a non-null parsed blob. -/
def listReasonVal (j : Json) (k : String) : Json :=
  jsOrEmptyStr (jsChain (jsMember j k) "reason")

/-- The listing's `dimension_reasons` field: `null` when the stored blob is
absent or empty (falsy) or fails to parse; also `null` when it parses to the
JSON `null` literal, since the member access then throws a `TypeError`
caught by the surrounding handler-level try only after the closure already
returned — the closure's own catch returns `null` for any throw inside it. -/
def listDimReasons (blob : Option String) : Option ReasonsMap :=
  match blob with
  | none => none
  | some b =>
    if b = "" then none
    else
      match JSON.parse b with
      | none => none
      | some .null => none
      | some j =>
        some ⟨listReasonVal j "urgency", listReasonVal j "frequency",
          listReasonVal j "market_size", listReasonVal j "monetization",
          listReasonVal j "barrier_to_entry"⟩

/-- Client-facing shape of one listing row (the fields carrying verified
behaviour; plus the raw scalar columns passed through unchanged). -/
structure ListItem where
  id : String
  title : String
  description : String
  mentioned_competitors : Option Json
  quotes : Option Json
  target_personas : Option Json
  actionable_insights : Option Json
  industry_code : Option String
  type_code : Option String
  total_score : Rat
  confidence : Rat
  dimension_scores : DimScores
  dimension_reasons : Option ReasonsMap
  created_at : String
  updated_at : String

/-- Formatter of one joined row into the listing response shape. -/
def formatListItem (r : JoinedRow) : ListItem :=
  { id := r.painPoint.id
    title := r.painPoint.title
    description := r.painPoint.description
    mentioned_competitors := parseJsonField r.painPoint.mentionedCompetitors
    quotes := parseJsonField r.painPoint.quotes
    target_personas := parseJsonField r.painPoint.targetPersonas
    actionable_insights := parseJsonField r.painPoint.actionableInsights
    industry_code := r.painPoint.industryCode
    type_code := r.painPoint.typeCode
    total_score := r.painPoint.totalScore
    confidence := r.painPoint.confidence
    dimension_scores := ⟨r.painPoint.scoreUrgency, r.painPoint.scoreFrequency,
      r.painPoint.scoreMarketSize, r.painPoint.scoreMonetization,
      r.painPoint.scoreBarrierToEntry⟩
    dimension_reasons := listDimReasons r.painPoint.dimensionReasons
    created_at := r.painPoint.createdAt
    updated_at := r.painPoint.updatedAt }

/-- Items of the returned page: the sorted filtered rows after
`OFFSET (page-1)*perPage` and `LIMIT perPage`, formatted; `none` when the
pagination parameters were `NaN` (the query then fails). -/
def pageItems (s : DB) (req : ListingReq) : Option (List ListItem) :=
  match effectivePage req, effectivePerPage req with
  | some page, some perPage =>
    some ((((sortedRows s req).drop ((page - 1) * perPage).toNat).take perPage.toNat).map formatListItem)
  | _, _ => none

/-- Pagination metadata of the listing response. -/
structure Meta where
  page : Int
  limit : Int
  total : Nat
  totalPages : Int
deriving Repr, DecidableEq

/-- Metadata of the listing response; `Math.ceil` is exact on these
magnitudes, so it is modelled with the rational ceiling. -/
def listingMeta (s : DB) (req : ListingReq) : Option Meta :=
  match effectivePage req, effectivePerPage req with
  | some page, some perPage =>
    some ⟨page, perPage, countTotal s req, ⌈(countTotal s req : ℚ) / (perPage : ℚ)⌉⟩
  | _, _ => none

/-- The listing endpoint: data page plus metadata on success; a `NaN`
page or limit reaches SQLite as `NULL` in `LIMIT`/`OFFSET`, the query
throws, and the handler's catch returns `DATABASE_ERROR`. -/
def painPointsGET (s : DB) (req : ListingReq) : ApiResult (List ListItem × Meta) :=
  match pageItems s req, listingMeta s req with
  | some items, some meta => .ok (items, meta)
  | _, _ => .err "DATABASE_ERROR"

/-! ## Stats endpoint (GET /api/stats) -/

/-- Milliseconds of one day. -/
def dayMs : Int := 86400000

/-- Cutoff instant computed by the stats handler (milliseconds since the
epoch): set the current instant to UTC midnight of the current UTC day, add
the timezone offset in minutes, and step one day back when that lands in
the future. -/
def newTodayCutoffMs (offsetMin nowMs : Int) : Int :=
  let mid := (nowMs.fdiv dayMs) * dayMs
  let mid := mid + offsetMin * 60000
  if nowMs < mid then mid - dayMs else mid

/-- Reference definition following the spec's words: the caller's local
midnight expressed in UTC, i.e. the UTC instant starting the current day of
the clock shifted by the offset. -/
def localMidnightSpec (offsetMin nowMs : Int) : Int :=
  ((nowMs - offsetMin * 60000).fdiv dayMs) * dayMs + offsetMin * 60000

/-- Two-digit zero-padded decimal representation. -/
def pad2 (n : Nat) : String :=
  if n < 10 then "0" ++ toString n else toString n

/-- Civil date (year, month, day) of a day count relative to 1970-01-01
(Gregorian calendar, standard era-based conversion). -/
def civilFromDays (z0 : Int) : Int × Nat × Nat :=
  let z := z0 + 719468
  let era := z.fdiv 146097
  let doe := (z - era * 146097).toNat
  let yoe := (doe - doe / 1460 + doe / 36524 - doe / 146096) / 365
  let doy := doe - (365 * yoe + yoe / 4 - yoe / 100)
  let mp := (5 * doy + 2) / 153
  let d := doy - (153 * mp + 2) / 5 + 1
  let m := if mp < 10 then mp + 3 else mp - 9
  (era * 400 + yoe + (if m ≤ 2 then 1 else 0), m, d)

/-- Model of `Date.prototype.toISOString().replace("T", " ").replace(/\.\d{3}Z$/, "")`:
the SQLite-comparable `YYYY-MM-DD HH:MM:SS` rendering of an instant. -/
def formatMs (ms : Int) : String :=
  let day := ms.fdiv dayMs
  let tod := (ms - day * dayMs).toNat
  let dmy := civilFromDays day
  toString dmy.1.toNat ++ "-" ++ pad2 dmy.2.1 ++ "-" ++ pad2 dmy.2.2 ++ " " ++
    pad2 (tod / 3600000) ++ ":" ++ pad2 (tod % 3600000 / 60000) ++ ":" ++
    pad2 (tod % 60000 / 1000)

/-- The stats endpoint's `new_today` count: parse the `x-timezone-offset`
header (defaulting to `"-480"` when absent or empty), compute the cutoff
string, and count pain points with `created_at >=` it (BINARY text
comparison); an unparsable header makes the date arithmetic produce an
invalid date whose serialisation throws, caught as `DATABASE_ERROR`. -/
def statsNewToday (s : DB) (header : Option String) (nowMs : Int) : ApiResult Nat :=
  match jsParseInt (jsOrElse header "-480") with
  | none => .err "DATABASE_ERROR"
  | some off =>
    let todayStr := formatMs (newTodayCutoffMs off nowMs)
    .ok (s.painPoints.countP (fun pp => strLe todayStr pp.createdAt))

/-! ## Pain-point detail endpoint (GET /api/pain-points/[id]) -/

/-- Helper of the detail endpoint:
`if (!field) return null; try return JSON.parse(field) catch return null`. -/
def parseDimensionReasons (field : Option String) : Option Json :=
  match field with
  | none => none
  | some s => if s = "" then none else JSON.parse s

/-- One reason of the detail response:
`parseDimensionReasons(blob)?.<k>?.reason || ""`. -/
def detailReason (blob : Option String) (k : String) : Json :=
  jsOrEmptyStr (jsChain (jsChain (parseDimensionReasons blob) k) "reason")

/-- One dimension of the detail response: the integer score column plus the
reason drawn from the JSON blob. -/
structure DetailDim where
  score : Int
  reason : Json

/-- The five dimensions of the detail response. -/
structure DetailDims where
  urgency : DetailDim
  frequency : DetailDim
  market_size : DetailDim
  monetization : DetailDim
  barrier_to_entry : DetailDim

/-- The `dimension_scores` object built by the detail endpoint. -/
def detailDims (pp : PainPoint) : DetailDims :=
  { urgency := ⟨pp.scoreUrgency, detailReason pp.dimensionReasons "urgency"⟩
    frequency := ⟨pp.scoreFrequency, detailReason pp.dimensionReasons "frequency"⟩
    market_size := ⟨pp.scoreMarketSize, detailReason pp.dimensionReasons "market_size"⟩
    monetization := ⟨pp.scoreMonetization, detailReason pp.dimensionReasons "monetization"⟩
    barrier_to_entry := ⟨pp.scoreBarrierToEntry, detailReason pp.dimensionReasons "barrier_to_entry"⟩ }

/-- Detail response fields carrying verified behaviour. -/
structure DetailData where
  id : String
  title : String
  mentioned_competitors : Option Json
  quotes : Option Json
  target_personas : Option Json
  actionable_insights : Option Json
  confidence : Rat
  total_score : Rat
  dimension_scores : DetailDims
  created_at : String
  updated_at : String

/-- The detail endpoint: the joined row whose pain-point id matches, limit
1, `NOT_FOUND` when there is none. -/
def painPointDetailGET (s : DB) (id : String) : ApiResult DetailData :=
  match (listingRows s).filter (fun r => r.painPoint.id == id) with
  | [] => .err "NOT_FOUND"
  | r :: _ =>
    .ok { id := r.painPoint.id
          title := r.painPoint.title
          mentioned_competitors := parseJsonField r.painPoint.mentionedCompetitors
          quotes := parseJsonField r.painPoint.quotes
          target_personas := parseJsonField r.painPoint.targetPersonas
          actionable_insights := parseJsonField r.painPoint.actionableInsights
          confidence := r.painPoint.confidence
          total_score := r.painPoint.totalScore
          dimension_scores := detailDims r.painPoint
          created_at := r.painPoint.createdAt
          updated_at := r.painPoint.updatedAt }

/-! ## Subreddit endpoints (src/app/api/subreddits) -/

/-- GET /api/subreddits/[id]: the row with the given id, `NOT_FOUND` when
the limit-1 select comes back empty. -/
def subredditGET (s : DB) (id : String) : ApiResult Subreddit :=
  match s.subreddits.filter (fun sub => sub.id == id) with
  | [] => .err "NOT_FOUND"
  | sub :: _ => .ok sub

/-- Request body of POST /api/subreddits, with each optional JSON field as
the handler reads it. -/
structure CreateBody where
  name : Option String
  display_name : Option String
  description : Option String
  is_active : Option Bool
  fetch_frequency : Option String
  posts_limit : Option Int
deriving Repr, DecidableEq

/-- Create body carrying only a name. -/
def nameOnlyBody (n : String) : CreateBody :=
  ⟨some n, none, none, none, none, none⟩

/-- POST /api/subreddits: requires a truthy name, validates it against
`/^[a-zA-Z0-9_]+$/`, rejects an existing row whose stored name equals the
lower-cased candidate, otherwise inserts the new row (name lower-cased on
write) and echoes it. -/
def subredditsPOST (s : DB) (body : CreateBody) (newId now : String) :
    ApiResult Subreddit × DB :=
  match body.name with
  | none => (.err "VALIDATION_ERROR", s)
  | some name =>
    if name = "" then (.err "VALIDATION_ERROR", s)
    else if ¬ (name.data.all isWordChar) then (.err "INVALID_SUBREDDIT_NAME", s)
    else if (s.subreddits.filter (fun sub => sub.name == asciiLower name)).isEmpty = false then
      (.err "SUBREDDIT_EXISTS", s)
    else
      let row : Subreddit :=
        { id := newId
          name := asciiLower name
          displayName := some (jsOrElse body.display_name name)
          description := (match body.description with
                          | some d => if d = "" then none else some d
                          | none => none)
          isActive := body.is_active ≠ some false
          fetchFrequency := jsOrElse body.fetch_frequency "daily"
          postsLimit := (match body.posts_limit with
                         | some n => if n = 0 then 100 else n
                         | none => 100)
          lastFetchedAt := none
          createdAt := now
          updatedAt := now }
      (.ok row, { s with subreddits := s.subreddits ++ [row] })

/-- Request body of PATCH /api/subreddits/[id]; `none` models an absent
(`undefined`) field, and `posts_limit` is kept as the raw value handed to
`parseInt`. -/
structure PatchBody where
  display_name : Option String
  description : Option String
  is_active : Option Bool
  fetch_frequency : Option String
  posts_limit : Option String
deriving Repr, DecidableEq

/-- Field update applied by the PATCH handler to the matching row; the
`name` column is never part of `updateData`. -/
def applyPatch (sub : Subreddit) (body : PatchBody) (now : String) : Subreddit :=
  { sub with
    displayName := (match body.display_name with
                    | some v => some v
                    | none => sub.displayName)
    description := (match body.description with
                    | some v => some v
                    | none => sub.description)
    isActive := (match body.is_active with
                 | some v => v
                 | none => sub.isActive)
    fetchFrequency := (match body.fetch_frequency with
                       | some v => v
                       | none => sub.fetchFrequency)
    postsLimit := (match body.posts_limit with
                   | some v => (jsParseInt v).getD sub.postsLimit
                   | none => sub.postsLimit)
    updatedAt := now }

/-- PATCH /api/subreddits/[id]: not-found check, fetch-frequency and
posts-limit validation (each an early return leaving the state unchanged),
then the update followed by a re-select of the row. -/
def subredditsPATCH (s : DB) (id : String) (body : PatchBody) (now : String) :
    ApiResult Subreddit × DB :=
  if (s.subreddits.filter (fun sub => sub.id == id)).isEmpty then
    (.err "NOT_FOUND", s)
  else if (match body.fetch_frequency with
           | some f => !(f == "hourly" || f == "daily" || f == "weekly")
           | none => false) then
    (.err "VALIDATION_ERROR", s)
  else if (match body.posts_limit with
           | some v => (match jsParseInt v with
                        | none => true
                        | some n => decide (n < 1) || decide (500 < n))
           | none => false) then
    (.err "VALIDATION_ERROR", s)
  else
    let updated := s.subreddits.map (fun sub => if sub.id == id then applyPatch sub body now else sub)
    ((match updated.filter (fun sub => sub.id == id) with
      | sub :: _ => .ok sub
      | [] => .err "DATABASE_ERROR"),
     { s with subreddits := updated })

/-- One DELETE statement issued by the subreddit DELETE handler. -/
inductive Stmt where
  | delTagLinks (painPointIds : List String)
  | delPainPoints (painPointIds : List String)
  | delPosts (postIds : List String)
  | delSubreddit (id : String)
deriving Repr, DecidableEq

/-- Outcome of the DELETE handler: response, final state and the list of
DELETE statements in issue order. -/
structure DeleteOut where
  resp : ApiResult Unit
  db : DB
  trace : List Stmt
deriving Repr, DecidableEq

/-- Ids of the posts belonging to the subreddit (`posts.subredditId = id`). -/
def depPostIds (s : DB) (id : String) : List String :=
  (s.posts.filter (fun p => p.subredditId == some id)).map (fun p => p.id)

/-- Ids of the pain points whose post is one of the given posts
(`painPoints.postId IN postIds`; a `NULL` foreign key matches nothing). -/
def depPainPointIds (s : DB) (id : String) : List String :=
  (s.painPoints.filter
    (fun pp => match pp.postId with
               | some pid => (depPostIds s id).contains pid
               | none => false)).map (fun pp => pp.id)

/-- DELETE /api/subreddits/[id]: existence check, then the dependent
deletions in the handler's order — tag links of the dependent pain points,
the pain points, the posts (each block skipped when its id list is empty),
finally the subreddit row. -/
def subredditsDELETE (s : DB) (id : String) : DeleteOut :=
  if (s.subreddits.filter (fun sub => sub.id == id)).isEmpty then
    ⟨.err "NOT_FOUND", s, []⟩
  else
    let postIds := depPostIds s id
    if postIds.isEmpty then
      ⟨.ok (), { s with subreddits := s.subreddits.filter (fun sub => !(sub.id == id)) },
        [.delSubreddit id]⟩
    else
      let ppIds := depPainPointIds s id
      if ppIds.isEmpty then
        ⟨.ok (),
          { s with
            posts := s.posts.filter (fun p => !(postIds.contains p.id))
            subreddits := s.subreddits.filter (fun sub => !(sub.id == id)) },
          [.delPosts postIds, .delSubreddit id]⟩
      else
        ⟨.ok (),
          { s with
            painPointTags := s.painPointTags.filter (fun l => !(ppIds.contains l.painPointId))
            painPoints := s.painPoints.filter (fun pp => !(ppIds.contains pp.id))
            posts := s.posts.filter (fun p => !(postIds.contains p.id))
            subreddits := s.subreddits.filter (fun sub => !(sub.id == id)) },
          [.delTagLinks ppIds, .delPainPoints ppIds, .delPosts postIds, .delSubreddit id]⟩

/-- Database states reachable through the API: the empty database, closed
under the three subreddit mutations; the `pipeline` step models the
external ingestion system, which writes every table except `subreddits`. -/
inductive Reach : DB → Prop
  | init : Reach ⟨[], [], [], [], [], []⟩
  | create (s : DB) (body : CreateBody) (newId now : String) :
      Reach s → Reach (subredditsPOST s body newId now).2
  | patch (s : DB) (id : String) (body : PatchBody) (now : String) :
      Reach s → Reach (subredditsPATCH s id body now).2
  | del (s : DB) (id : String) : Reach s → Reach (subredditsDELETE s id).db
  | pipeline (s : DB) (posts : List Post) (painPoints : List PainPoint)
      (industries : List Industry) (painPointTypes : List PainPointType)
      (painPointTags : List PainPointTag) :
      Reach s → Reach ⟨s.subreddits, posts, painPoints, industries, painPointTypes, painPointTags⟩

/-! ## Concrete fixtures used by witnesses and counterexamples -/

/-- Subreddit fixture. -/
def subAlpha : Subreddit :=
  ⟨"s1", "alpha", none, none, true, "daily", 100, none, "2024-01-01 00:00:00", "2024-01-01 00:00:00"⟩

/-- Second subreddit fixture. -/
def subBeta : Subreddit :=
  ⟨"s2", "beta", none, none, true, "daily", 100, none, "2024-01-01 00:00:00", "2024-01-01 00:00:00"⟩

/-- Post fixture in `subAlpha`. -/
def postOne : Post :=
  ⟨"p1", some "s1", "r1", "post one", none, none, "u1", 10, 2, "2024-01-01 00:00:00",
    "completed", none, "2024-01-01 00:00:00"⟩

/-- Post fixture in `subBeta`. -/
def postTwo : Post :=
  ⟨"p2", some "s2", "r2", "post two", none, none, "u2", 20, 4, "2024-01-01 00:00:00",
    "completed", none, "2024-01-01 00:00:00"⟩

/-- Post fixture in `subAlpha`. -/
def postThree : Post :=
  ⟨"p3", some "s1", "r3", "post three", none, none, "u3", 30, 6, "2024-01-01 00:00:00",
    "completed", none, "2024-01-01 00:00:00"⟩

/-- Pain-point fixture whose title contains `alpha`. -/
def ppAlpha : PainPoint :=
  ⟨"pp1", some "p1", "alpha pain", "d1", none, none, none, none, none, none, none,
    none, none, 1, 5, 1, 2, 3, 4, 5, none, "2024-01-01 00:00:02", "2024-01-01 00:00:02"⟩

/-- Pain-point fixture attached to `postTwo`, title without `alpha`. -/
def ppBeta : PainPoint :=
  ⟨"pp2", some "p2", "beta pain", "d2", none, none, none, none, none, none, none,
    none, none, 1, 7, 1, 2, 3, 4, 5, none, "2024-01-01 00:00:01", "2024-01-01 00:00:01"⟩

/-- Pain-point fixture attached to `postThree`, title without `alpha`. -/
def ppGamma : PainPoint :=
  ⟨"pp3", some "p3", "gamma pain", "d3", none, none, none, none, none, none, none,
    none, none, 1, 9, 1, 2, 3, 4, 5, none, "2024-01-01 00:00:01", "2024-01-01 00:00:01"⟩

/-- State for the count-versus-page comparison: two pain points in two
different subreddits. -/
def exDB1 : DB :=
  ⟨[subAlpha, subBeta], [postOne, postTwo], [ppAlpha, ppBeta], [], [], []⟩

/-- Listing request filtering on subreddit `alpha` only. -/
def reqC1 : ListingReq :=
  { emptyReq with subreddit := some "alpha" }

/-- State for the filter-composition exhibit: both pain points in
subreddit `alpha`, one matching the search token and one not. -/
def exDB2 : DB :=
  ⟨[subAlpha, subBeta], [postOne, postThree], [ppAlpha, ppGamma], [], [], []⟩

/-- Listing request supplying a search token together with a subreddit
filter. -/
def reqC2 : ListingReq :=
  { emptyReq with search := some "alpha", subreddit := some "alpha" }

/-- Request instant 2024-01-01T16:30:00Z in epoch milliseconds. -/
def exNowMs : Int := 19723 * 86400000 + 59400000

/-- Creation instant 2024-01-01T10:00:00Z in epoch milliseconds. -/
def exCreatedMs : Int := 19723 * 86400000 + 36000000

/-- Pain point created at 2024-01-01 10:00:00 UTC. -/
def ppToday : PainPoint :=
  ⟨"pp9", none, "t", "d", none, none, none, none, none, none, none,
    none, none, 1, 5, 1, 2, 3, 4, 5, none, "2024-01-01 10:00:00", "2024-01-01 10:00:00"⟩

/-- State holding only `ppToday`. -/
def exDB3 : DB := ⟨[], [], [ppToday], [], [], []⟩

/-- Pain point whose four array-valued JSON columns are malformed and whose
dimension-reasons blob is absent. -/
def ppBadJson : PainPoint :=
  ⟨"pp4", none, "bad json", "d4", none, none, none, some "not json", some "[",
    some "oops", some "]", none, none, 1, 5, 1, 2, 3, 4, 5, none,
    "2024-01-01 00:00:03", "2024-01-01 00:00:03"⟩

/-- State holding only `ppBadJson`. -/
def exDB4 : DB := ⟨[], [], [ppBadJson], [], [], []⟩

/-- Pain point whose dimension-reasons blob stores the number `5` as the
urgency reason. -/
def ppNumReason : PainPoint :=
  ⟨"pp5", none, "num reason", "d5", none, none, none, none, none, none, none,
    none, none, 1, 5, 1, 2, 3, 4, 5,
    some "\x7b\"urgency\":\x7b\"score\":1,\"reason\":5\x7d\x7d",
    "2024-01-01 00:00:04", "2024-01-01 00:00:04"⟩

/-- State holding only `ppNumReason`. -/
def exDB5 : DB := ⟨[], [], [ppNumReason], [], [], []⟩

/-! ## Claim theorems -/

/-- C1: the claim says the reported `total` equals the number of rows
satisfying the very predicate that selects the page.  Exhibit of the code's
actual behaviour at a concrete state: with only a subreddit filter supplied,
the count query (which never receives the subreddit clause) reports 2 while
exactly 1 join row satisfies the page's predicate and the page holds that
single row. -/
theorem C1_total_ignores_subreddit_filter :
    reqC1.subreddit = some "alpha" ∧
    countTotal exDB1 reqC1 = 2 ∧
    ((listingRows exDB1).filter (fun r => condSubreddit "alpha" r)).length = 1 ∧
    (pageItems exDB1 reqC1).map (fun items => items.map (fun i => i.id)) = some ["pp1"] :=
  ⟨rfl, rfl, rfl, rfl⟩

/-- C2: the claim says every returned row satisfies all supplied filters
simultaneously.  Exhibit at a concrete state: with `search=alpha` and
`subreddit=alpha` both supplied, the second `.where` call replaces the
search condition, so the page returns `pp3` although its title and
description do not match the search token (and the count query, which kept
only the search condition, reports 1 while the page has 2 rows). -/
theorem C2_subreddit_where_replaces_search :
    reqC2.search = some "alpha" ∧
    reqC2.subreddit = some "alpha" ∧
    (pageItems exDB2 reqC2).map (fun items => items.map (fun i => i.id)) = some ["pp1", "pp3"] ∧
    condSearch "alpha" ppGamma = false ∧
    countTotal exDB2 reqC2 = 1 :=
  ⟨rfl, rfl, rfl, rfl, rfl⟩

/-- C3: the claim says `new_today` counts exactly the pain points created at
or after the caller's local midnight.  Exhibit: at request time
2024-01-01T16:30:00Z with offset -480 (UTC+8), the handler's cutoff is
2023-12-31T16:00:00Z — one day before the actual local midnight
2024-01-01T16:00:00Z — so a pain point created 2024-01-01T10:00:00Z
(before local midnight) is counted as new today. -/
theorem C3_new_today_miscounts_after_utc_rollover :
    newTodayCutoffMs (-480) exNowMs = 1704038400000 ∧
    formatMs (newTodayCutoffMs (-480) exNowMs) = "2023-12-31 16:00:00" ∧
    localMidnightSpec (-480) exNowMs = 1704124800000 ∧
    formatMs (localMidnightSpec (-480) exNowMs) = "2024-01-01 16:00:00" ∧
    statsNewToday exDB3 (some "-480") exNowMs = .ok 1 ∧
    exCreatedMs < localMidnightSpec (-480) exNowMs ∧
    ppToday.createdAt = formatMs exCreatedMs :=
  ⟨rfl, rfl, rfl, rfl, rfl, by decide, rfl⟩

/-- C4 counterexample: the claim says a row with a missing dimension-reasons
blob yields empty-string reasons per dimension in the returned
`dimension_reasons` map; in fact the listing returns `null` there (no map at
all), while the malformed array columns do degrade to null and the request
succeeds. -/
theorem C4_missing_blob_yields_null_not_empty_map :
    (pageItems exDB4 emptyReq).map (fun items => items.map
      (fun i => (i.mentioned_competitors, i.quotes, i.target_personas,
        i.actionable_insights, i.dimension_reasons)))
      = some [(none, none, none, none, none)] ∧
    (∃ rows meta, painPointsGET exDB4 emptyReq = .ok (rows, meta)) ∧
    ppBadJson.dimensionReasons = none ∧
    (∀ m : ReasonsMap, listDimReasons ppBadJson.dimensionReasons ≠ some m) :=
  ⟨rfl, ⟨_, _, rfl⟩, rfl, fun _ h => Option.noConfusion h⟩

/-- C4 (amended): malformed JSON in any of the four array-valued columns
degrades to `null` for that field while the request still succeeds; a
missing (or unparsable) dimension-reasons blob yields `null` — not an
empty-string map — and empty-string reasons appear only per dimension when
the blob parses to a non-null value lacking that dimension's reason. -/
theorem C4_malformed_fields_degrade_to_null :
    (∀ r : JoinedRow,
      (∀ c, r.painPoint.mentionedCompetitors = some c → JSON.parse c = none →
        (formatListItem r).mentioned_competitors = none) ∧
      (∀ c, r.painPoint.quotes = some c → JSON.parse c = none →
        (formatListItem r).quotes = none) ∧
      (∀ c, r.painPoint.targetPersonas = some c → JSON.parse c = none →
        (formatListItem r).target_personas = none) ∧
      (∀ c, r.painPoint.actionableInsights = some c → JSON.parse c = none →
        (formatListItem r).actionable_insights = none) ∧
      (r.painPoint.dimensionReasons = none → (formatListItem r).dimension_reasons = none) ∧
      (∀ c, r.painPoint.dimensionReasons = some c → JSON.parse c = none →
        (formatListItem r).dimension_reasons = none) ∧
      (∀ c j, r.painPoint.dimensionReasons = some c → c ≠ "" → JSON.parse c = some j →
        j ≠ .null → jsMember j "urgency" = none →
        ((formatListItem r).dimension_reasons.map (fun m => m.urgency)) = some (.str ""))) ∧
    (∀ (s : DB) (req : ListingReq) (p l : Int),
      effectivePage req = some p → effectivePerPage req = some l →
      ∃ rows meta, painPointsGET s req = .ok (rows, meta)) := by
  constructor
  · intro r
    refine ⟨?_, ?_, ?_, ?_, ?_, ?_, ?_⟩
    · intro c hc hp
      simp only [formatListItem, parseJsonField, hc]
      split <;> simp [hp]
    · intro c hc hp
      simp only [formatListItem, parseJsonField, hc]
      split <;> simp [hp]
    · intro c hc hp
      simp only [formatListItem, parseJsonField, hc]
      split <;> simp [hp]
    · intro c hc hp
      simp only [formatListItem, parseJsonField, hc]
      split <;> simp [hp]
    · intro hc
      simp [formatListItem, listDimReasons, hc]
    · intro c hc hp
      simp only [formatListItem, listDimReasons, hc]
      split
      · rfl
      · simp [hp]
    · intro c j hc hne hp hnull hmem
      simp only [formatListItem, listDimReasons, hc]
      rw [if_neg hne, hp]
      cases j with
      | null => exact absurd rfl hnull
      | bool b => simp [listReasonVal, hmem, jsChain, jsOrEmptyStr]
      | num q => simp [listReasonVal, hmem, jsChain, jsOrEmptyStr]
      | str t => simp [listReasonVal, hmem, jsChain, jsOrEmptyStr]
      | arr es => simp [listReasonVal, hmem, jsChain, jsOrEmptyStr]
      | obj ms => simp [listReasonVal, hmem, jsChain, jsOrEmptyStr]
  · intro s req p l hp hl
    simp only [painPointsGET, pageItems, listingMeta, hp, hl]
    exact ⟨_, _, rfl⟩

/-- C4 witness: the amended statement applied at the concrete malformed
fixture and at a concrete request whose pagination parses. -/
theorem C4_malformed_fields_witness :
    (formatListItem (joinedRow exDB4 ppBadJson)).mentioned_competitors = none ∧
    (formatListItem (joinedRow exDB4 ppBadJson)).dimension_reasons = none ∧
    (∃ rows meta, painPointsGET exDB4 emptyReq = .ok (rows, meta)) :=
  ⟨(C4_malformed_fields_degrade_to_null.1 (joinedRow exDB4 ppBadJson)).1 "not json" rfl rfl,
   ((C4_malformed_fields_degrade_to_null.1 (joinedRow exDB4 ppBadJson)).2.2.2.2.1) rfl,
   C4_malformed_fields_degrade_to_null.2 exDB4 emptyReq 1 20 rfl rfl⟩

/-- Pain point whose dimension-reasons blob stores a proper reason string. -/
def ppGoodReason : PainPoint :=
  ⟨"pp6", none, "good reason", "d6", none, none, none, none, none, none, none,
    none, none, 1, 5, 9, 2, 3, 4, 5,
    some "\x7b\"urgency\":\x7b\"score\":9,\"reason\":\"hot\"\x7d\x7d",
    "2024-01-01 00:00:05", "2024-01-01 00:00:05"⟩

/-- C5 counterexample: the claim says the detail endpoint's
`dimension_scores.<dim>.reason` is always a string (the blob's string when
present and parsable, else `""`); with a blob whose urgency reason is the
number `5`, the endpoint passes the number through, so the reason is not a
string at all. -/
theorem C5_nonstring_reason_passes_through :
    (detailDims ppNumReason).urgency.reason = Json.num 5 ∧
    (detailDims ppNumReason).urgency.score = 1 ∧
    (∃ d, painPointDetailGET exDB5 "pp5" = .ok d ∧
      d.dimension_scores.urgency.reason = Json.num 5) ∧
    (∀ str, (detailDims ppNumReason).urgency.reason ≠ Json.str str) :=
  ⟨rfl, rfl, ⟨_, rfl, rfl⟩, fun _ h => Json.noConfusion h⟩

/-- C5 (amended): for every stored pain point the detail endpoint's
`dimension_scores.<dim>.score` is the stored integer column; the reason is
`""` whenever the blob is absent, empty, unparsable or the JSON `null`
literal, and it is the blob's string whenever the path `<dim>.reason` of
the parsed blob holds a string; non-string truthy reason values pass
through unchanged (the counterexample), which is the only deviation from
the claim. -/
theorem C5_detail_scores_from_columns_reasons_from_blob :
    (∀ pp : PainPoint,
      (detailDims pp).urgency.score = pp.scoreUrgency ∧
      (detailDims pp).frequency.score = pp.scoreFrequency ∧
      (detailDims pp).market_size.score = pp.scoreMarketSize ∧
      (detailDims pp).monetization.score = pp.scoreMonetization ∧
      (detailDims pp).barrier_to_entry.score = pp.scoreBarrierToEntry) ∧
    (∀ (blob : Option String) (k : String),
      parseDimensionReasons blob = none → detailReason blob k = .str "") ∧
    (∀ (blob : Option String) (k : String),
      parseDimensionReasons blob = some .null → detailReason blob k = .str "") ∧
    (∀ (blob : Option String) (k s' : String) (j : Json),
      parseDimensionReasons blob = some j →
      jsChain (jsChain (some j) k) "reason" = some (.str s') →
      detailReason blob k = .str s') ∧
    (∀ (s : DB) (id : String) (d : DetailData),
      painPointDetailGET s id = .ok d →
      ∃ pp, pp ∈ s.painPoints ∧ pp.id = id ∧ d.dimension_scores = detailDims pp) := by
  refine ⟨fun pp => ⟨rfl, rfl, rfl, rfl, rfl⟩, ?_, ?_, ?_, ?_⟩
  · intro blob k h
    simp [detailReason, h, jsChain, jsOrEmptyStr]
  · intro blob k h
    simp [detailReason, h, jsChain, jsOrEmptyStr]
  · intro blob k s' j h1 h2
    rw [detailReason, h1, h2]
    by_cases hs : s' = "" <;> simp [jsOrEmptyStr, jsTruthy, hs]
  · intro s id d h
    rw [painPointDetailGET] at h
    rcases hres : (listingRows s).filter (fun r => r.painPoint.id == id) with _ | ⟨r, rest⟩
    · rw [hres] at h
      exact absurd h (by simp)
    · rw [hres] at h
      have hrmem : r ∈ (listingRows s).filter (fun r => r.painPoint.id == id) := by
        rw [hres]; exact List.mem_cons_self r rest
      rw [List.mem_filter] at hrmem
      obtain ⟨hmem, hid⟩ := hrmem
      rw [listingRows, List.mem_map] at hmem
      obtain ⟨pp, hppmem, hppeq⟩ := hmem
      refine ⟨pp, hppmem, ?_, ?_⟩
      · have : r.painPoint = pp := by rw [← hppeq]; rfl
        rw [← this]
        exact eq_of_beq hid
      · cases h
        have : r.painPoint = pp := by rw [← hppeq]; rfl
        simp [this]

/-- C5 witness: the amended statement applied at concrete pain points — one
with no blob (reason `""`, score from the column) and one whose blob stores
the string `"hot"` for urgency. -/
theorem C5_detail_witness :
    (detailDims ppToday).urgency.score = 1 ∧
    detailReason ppToday.dimensionReasons "urgency" = .str "" ∧
    detailReason ppGoodReason.dimensionReasons "urgency" = .str "hot" :=
  ⟨(C5_detail_scores_from_columns_reasons_from_blob.1 ppToday).1,
   C5_detail_scores_from_columns_reasons_from_blob.2.1 ppToday.dimensionReasons "urgency" rfl,
   C5_detail_scores_from_columns_reasons_from_blob.2.2.2.1 ppGoodReason.dimensionReasons
     "urgency" "hot" _ rfl rfl⟩

/-- Transitivity of the BINARY-collation comparison. -/
theorem charListLe_trans : ∀ (a b c : List Char),
    charListLe a b = true → charListLe b c = true → charListLe a c = true := by
  intro a
  induction a with
  | nil => intro b c _ _; rfl
  | cons x xs ih =>
    intro b c h1 h2
    cases b with
    | nil => simp [charListLe] at h1
    | cons y ys =>
      cases c with
      | nil => simp [charListLe] at h2
      | cons z zs =>
        simp only [charListLe] at h1 h2 ⊢
        by_cases hxy : x.toNat < y.toNat <;> by_cases hyz : y.toNat < z.toNat <;>
          by_cases hxz : x.toNat < z.toNat <;>
          simp only [hxy, hyz, hxz, if_true, if_false, if_pos, if_neg] at h1 h2 ⊢ <;>
          try rfl
        all_goals (first
          | omega
          | (by_cases hyx : y.toNat < x.toNat <;> by_cases hzy : z.toNat < y.toNat <;>
              simp only [hyx, hzy, if_true, if_false] at h1 h2 ⊢ <;>
              first
                | omega
                | simp at h1
                | simp at h2
                | (have hzx : ¬ z.toNat < x.toNat := by omega
                   simp only [hzx, if_false]
                   exact ih ys zs h1 h2)))

/-- Totality of the BINARY-collation comparison. -/
theorem charListLe_total : ∀ (a b : List Char),
    charListLe a b = true ∨ charListLe b a = true := by
  intro a
  induction a with
  | nil => intro b; left; rfl
  | cons x xs ih =>
    intro b
    cases b with
    | nil => right; rfl
    | cons y ys =>
      simp only [charListLe]
      by_cases hxy : x.toNat < y.toNat
      · left; simp [hxy]
      · by_cases hyx : y.toNat < x.toNat
        · right; simp [hyx, hxy]
        · simp only [hxy, hyx, if_false]
          exact ih ys

/-- Transitivity of the nullable-integer comparison. -/
theorem optIntLe_trans : ∀ (a b c : Option Int),
    optIntLe a b = true → optIntLe b c = true → optIntLe a c = true := by
  intro a b c h1 h2
  cases a <;> cases b <;> cases c <;> simp [optIntLe] at h1 h2 ⊢ <;> omega

/-- Totality of the nullable-integer comparison. -/
theorem optIntLe_total : ∀ (a b : Option Int),
    optIntLe a b = true ∨ optIntLe b a = true := by
  intro a b
  cases a <;> cases b <;> simp [optIntLe] <;> omega

/-- Transitivity of the resolved ORDER BY comparison. -/
theorem rowLe_trans (kd : SortKey × SortDir) (a b c : JoinedRow)
    (h1 : rowLe kd a b = true) (h2 : rowLe kd b c = true) : rowLe kd a c = true := by
  obtain ⟨k, d⟩ := kd
  cases d <;> simp only [rowLe] at h1 h2 ⊢
  · cases k <;> simp only [keyLe, strLe, decide_eq_true_eq] at h1 h2 ⊢
    · exact le_trans h1 h2
    · exact le_trans h1 h2
    · exact charListLe_trans _ _ _ h1 h2
    · exact optIntLe_trans _ _ _ h1 h2
    · exact optIntLe_trans _ _ _ h1 h2
  · cases k <;> simp only [keyLe, strLe, decide_eq_true_eq] at h1 h2 ⊢
    · exact le_trans h2 h1
    · exact le_trans h2 h1
    · exact charListLe_trans _ _ _ h2 h1
    · exact optIntLe_trans _ _ _ h2 h1
    · exact optIntLe_trans _ _ _ h2 h1

/-- Totality of the resolved ORDER BY comparison. -/
theorem rowLe_total (kd : SortKey × SortDir) (a b : JoinedRow) :
    rowLe kd a b = true ∨ rowLe kd b a = true := by
  obtain ⟨k, d⟩ := kd
  cases d <;> simp only [rowLe]
  · cases k <;> simp only [keyLe, strLe, decide_eq_true_eq]
    · exact le_total _ _
    · exact le_total _ _
    · exact charListLe_total _ _
    · exact optIntLe_total _ _
    · exact optIntLe_total _ _
  · cases k <;> simp only [keyLe, strLe, decide_eq_true_eq]
    · exact (le_total _ _).symm
    · exact (le_total _ _).symm
    · exact (charListLe_total _ _).symm
    · exact (optIntLe_total _ _).symm
    · exact (optIntLe_total _ _).symm

/-- The filtered rows, once sorted, are pairwise ordered by the resolved
comparison. -/
theorem sortedRows_pairwise (s : DB) (req : ListingReq) :
    (sortedRows s req).Pairwise
      (fun a b => rowLe (resolveSort req.sortParam req.orderParam) a b = true) := by
  haveI inst1 : IsTotal JoinedRow
      (fun a b => rowLe (resolveSort req.sortParam req.orderParam) a b = true) :=
    ⟨fun a b => rowLe_total _ a b⟩
  haveI inst2 : IsTrans JoinedRow
      (fun a b => rowLe (resolveSort req.sortParam req.orderParam) a b = true) :=
    ⟨fun a b c => rowLe_trans _ a b c⟩
  exact List.sorted_insertionSort _ _

/-- Every page of items is pairwise ordered under any relation the resolved
row comparison transfers to through the formatter. -/
theorem pageItems_pairwise (s : DB) (req : ListingReq) (rows : List ListItem)
    (h : pageItems s req = some rows) (S : ListItem → ListItem → Prop)
    (htr : ∀ a b : JoinedRow,
      rowLe (resolveSort req.sortParam req.orderParam) a b = true →
      S (formatListItem a) (formatListItem b)) :
    rows.Pairwise S := by
  rw [pageItems] at h
  rcases hp : effectivePage req with _ | p
  · rw [hp] at h; exact absurd h (by simp)
  · rcases hl : effectivePerPage req with _ | l
    · rw [hp, hl] at h; exact absurd h (by simp)
    · rw [hp, hl] at h
      simp only [Option.some.injEq] at h
      subst h
      have hsorted := sortedRows_pairwise s req
      have hsub :
          ((((sortedRows s req).drop ((p - 1) * l).toNat).take l.toNat)).Sublist
            (sortedRows s req) :=
        (List.take_sublist _ _).trans (List.drop_sublist _ _)
      exact (hsorted.sublist hsub).map formatListItem htr

/-- Sort parameter values recognised by the handler (new-style field names
and legacy combined values). -/
def recognizedSorts : List String :=
  ["total_score", "confidence", "created_at", "score_desc", "score_asc",
   "confidence_desc", "confidence_asc", "created_at_asc", "reddit_score_desc",
   "comments_desc", "created_at_desc"]

/-- C8: `sort=total_score&order=asc` orders the page ascending by
total_score; the legacy `sort=score_desc` orders it descending by
total_score (whatever `order` says); and with no recognised sort supplied
the page is ordered by descending creation time. -/
theorem C8_sort_resolution_orders_page :
    (∀ (s : DB) (req : ListingReq) (rows : List ListItem),
      req.sortParam = some "total_score" → req.orderParam = some "asc" →
      pageItems s req = some rows →
      resolveSort req.sortParam req.orderParam = (.totalScore, .asc) ∧
      rows.Pairwise (fun a b => a.total_score ≤ b.total_score)) ∧
    (∀ (s : DB) (req : ListingReq) (rows : List ListItem),
      req.sortParam = some "score_desc" →
      pageItems s req = some rows →
      resolveSort req.sortParam req.orderParam = (.totalScore, .desc) ∧
      rows.Pairwise (fun a b => b.total_score ≤ a.total_score)) ∧
    (∀ (s : DB) (req : ListingReq) (rows : List ListItem),
      (req.sortParam = none ∨ ∃ v, req.sortParam = some v ∧ v ∉ recognizedSorts) →
      pageItems s req = some rows →
      resolveSort req.sortParam req.orderParam = (.createdAt, .desc) ∧
      rows.Pairwise (fun a b => strLe b.created_at a.created_at = true)) := by
  refine ⟨?_, ?_, ?_⟩
  · intro s req rows hsort horder h
    have hres : resolveSort req.sortParam req.orderParam = (.totalScore, .asc) := by
      rw [hsort, horder]; rfl
    refine ⟨hres, pageItems_pairwise s req rows h _ ?_⟩
    intro a b hle
    rw [hres] at hle
    simpa [rowLe, keyLe, formatListItem] using hle
  · intro s req rows hsort h
    have hres : resolveSort req.sortParam req.orderParam = (.totalScore, .desc) := by
      rw [hsort]
      rcases req.orderParam with _ | o
      · rfl
      · simp [resolveSort, jsOrElse]
    refine ⟨hres, pageItems_pairwise s req rows h _ ?_⟩
    intro a b hle
    rw [hres] at hle
    simpa [rowLe, keyLe, formatListItem] using hle
  · intro s req rows hsort h
    have hres : resolveSort req.sortParam req.orderParam = (.createdAt, .desc) := by
      rcases hsort with hnone | ⟨v, hv, hmem⟩
      · rw [hnone]
        simp [resolveSort, jsOrElse]
      · rw [hv]
        simp only [recognizedSorts, List.mem_cons, List.mem_singleton] at hmem
        push_neg at hmem
        by_cases hve : v = ""
        · subst hve
          simp [resolveSort, jsOrElse]
        · simp only [resolveSort, jsOrElse, if_neg hve]
          rw [if_neg]
          · split <;> simp_all
          · push_neg
            refine ⟨?_, ?_, ?_⟩ <;> tauto
    refine ⟨hres, pageItems_pairwise s req rows h _ ?_⟩
    intro a b hle
    rw [hres] at hle
    simpa [rowLe, keyLe, formatListItem] using hle

/-- Listing request with new-style ascending total-score sort. -/
def reqSortAsc : ListingReq :=
  { emptyReq with sortParam := some "total_score", orderParam := some "asc" }

/-- Listing request with the legacy combined sort value. -/
def reqSortLegacy : ListingReq :=
  { emptyReq with sortParam := some "score_desc" }

/-- C8 witness: the three sort behaviours at a concrete two-row state. -/
theorem C8_sort_witness :
    ((pageItems exDB1 reqSortAsc).getD []).Pairwise
      (fun a b => a.total_score ≤ b.total_score) ∧
    ((pageItems exDB1 reqSortLegacy).getD []).Pairwise
      (fun a b => b.total_score ≤ a.total_score) ∧
    ((pageItems exDB1 emptyReq).getD []).Pairwise
      (fun a b => strLe b.created_at a.created_at = true) :=
  ⟨(C8_sort_resolution_orders_page.1 exDB1 reqSortAsc _ rfl rfl rfl).2,
   (C8_sort_resolution_orders_page.2.1 exDB1 reqSortLegacy _ rfl rfl).2,
   (C8_sort_resolution_orders_page.2.2 exDB1 emptyReq _ (Or.inl rfl) rfl).2⟩

/-- Ceiling of a natural division expressed with the rounded-up integer
division formula. -/
theorem ceil_natCast_div (n d : Nat) (hd : 0 < d) :
    ⌈(n : ℚ) / (d : ℚ)⌉ = ((n + d - 1) / d : ℕ) := by
  have hd0 : (0 : ℚ) < (d : ℚ) := by exact_mod_cast hd
  have hdm := Nat.div_add_mod (n + d - 1) d
  have hml : (n + d - 1) % d < d := Nat.mod_lt _ hd
  have hcomm : (n + d - 1) / d * d = d * ((n + d - 1) / d) := Nat.mul_comm _ _
  obtain ⟨m, hm⟩ : ∃ m, d * ((n + d - 1) / d) = m := ⟨_, rfl⟩
  rw [hm] at hdm
  have f1 : (n + d - 1) / d * d < n + d := by rw [hcomm, hm]; omega
  have f2 : n ≤ (n + d - 1) / d * d := by rw [hcomm, hm]; omega
  rw [Int.ceil_eq_iff]
  constructor
  · rw [lt_div_iff₀ hd0, Int.cast_natCast]
    have c1 : ((((n + d - 1) / d : ℕ) : ℚ)) * d < (n : ℚ) + d := by exact_mod_cast f1
    linarith
  · rw [div_le_iff₀ hd0, Int.cast_natCast]
    exact_mod_cast f2

/-- Listing request whose page parameter is not a number. -/
def reqBadPage : ListingReq :=
  { emptyReq with page := some "abc" }

/-- C9 counterexample: the claim says the effective page number is at least
1 for every request; with `page=abc`, `parseInt` yields `NaN`,
`Math.max(1, NaN)` is `NaN` (no clamping), and the request fails with
`DATABASE_ERROR` instead of serving a page. -/
theorem C9_nan_page_not_clamped :
    (¬ ∃ p, effectivePage reqBadPage = some p ∧ 1 ≤ p) ∧
    painPointsGET ⟨[], [], [], [], [], []⟩ reqBadPage = .err "DATABASE_ERROR" :=
  ⟨fun h => match h with
    | ⟨_, heq, _⟩ => Option.noConfusion heq, rfl⟩

/-- C9 (amended): whenever the pagination parameters parse (the defaults
applying when they are absent or empty), the effective page is at least 1,
the effective page size lies in [1,100], the page query drops
`(page-1)*limit` rows and takes at most `limit`, and the reported
`totalPages` is the ceiling of `total/limit`; a non-numeric page or limit
parameter instead fails the request with `DATABASE_ERROR`. -/
theorem C9_pagination_bounds (s : DB) (req : ListingReq) (p l : Int)
    (rows : List ListItem) (meta : Meta)
    (hp : effectivePage req = some p) (hl : effectivePerPage req = some l)
    (hout : painPointsGET s req = .ok (rows, meta)) :
    1 ≤ p ∧ 1 ≤ l ∧ l ≤ 100 ∧
    meta.page = p ∧ meta.limit = l ∧
    rows.length ≤ l.toNat ∧
    meta.total = countTotal s req ∧
    meta.totalPages = ⌈(countTotal s req : ℚ) / (l : ℚ)⌉ ∧
    meta.totalPages = ((countTotal s req + l.toNat - 1) / l.toNat : ℕ) ∧
    rows = (((sortedRows s req).drop ((p - 1) * l).toNat).take l.toNat).map formatListItem := by
  have hp1 : 1 ≤ p := by
    rw [effectivePage] at hp
    rcases hx : jsParseInt (jsOrElse req.page "1") with _ | x
    · rw [hx] at hp; exact absurd hp (by simp [jsMaxI])
    · rw [hx] at hp
      simp only [jsMaxI, Option.some.injEq] at hp
      omega
  have hl1 : 1 ≤ l ∧ l ≤ 100 := by
    rw [effectivePerPage] at hl
    rcases hx : jsParseInt (jsOrElse req.limit (jsOrElse req.perPage "20")) with _ | x
    · rw [hx] at hl; exact absurd hl (by simp [jsMaxI, jsMinI])
    · rw [hx] at hl
      simp only [jsMaxI, jsMinI, Option.some.injEq] at hl
      omega
  rw [painPointsGET, pageItems, listingMeta, hp, hl] at hout
  simp only [ApiResult.ok.injEq, Prod.mk.injEq] at hout
  obtain ⟨hrows, hmeta⟩ := hout
  have hlnat : ((l.toNat : ℚ)) = (l : ℚ) := by
    have : (0 : ℤ) ≤ l := by omega
    exact_mod_cast Int.toNat_of_nonneg this
  refine ⟨hp1, hl1.1, hl1.2, ?_, ?_, ?_, ?_, ?_, ?_, hrows.symm⟩
  · rw [← hmeta]
  · rw [← hmeta]
  · rw [← hrows]
    calc (((((sortedRows s req).drop ((p - 1) * l).toNat).take l.toNat)).map formatListItem).length
        = ((((sortedRows s req).drop ((p - 1) * l).toNat).take l.toNat)).length := List.length_map _ _
      _ ≤ l.toNat := List.length_take_le _ _
  · rw [← hmeta]
  · rw [← hmeta]
  · rw [← hmeta]
    show (⌈(countTotal s req : ℚ) / (l : ℚ)⌉ : ℤ) = ((countTotal s req + l.toNat - 1) / l.toNat : ℕ)
    rw [← hlnat]
    exact ceil_natCast_div (countTotal s req) l.toNat (by omega)

/-- Listing request asking for page 2 of size 5. -/
def reqPag : ListingReq :=
  { emptyReq with page := some "2", limit := some "5" }

/-- C9 witness: the amended statement applied at a concrete request whose
pagination parses to page 2, size 5. -/
theorem C9_pagination_witness :
    1 ≤ (2 : Int) ∧ 1 ≤ (5 : Int) ∧ (5 : Int) ≤ 100 ∧
    ((listingMeta exDB1 reqPag).getD ⟨0, 0, 0, 0⟩).page = 2 ∧
    ((listingMeta exDB1 reqPag).getD ⟨0, 0, 0, 0⟩).limit = 5 ∧
    ((pageItems exDB1 reqPag).getD []).length ≤ (5 : Int).toNat ∧
    ((listingMeta exDB1 reqPag).getD ⟨0, 0, 0, 0⟩).total = countTotal exDB1 reqPag ∧
    ((listingMeta exDB1 reqPag).getD ⟨0, 0, 0, 0⟩).totalPages
      = ⌈(countTotal exDB1 reqPag : ℚ) / ((5 : Int) : ℚ)⌉ ∧
    ((listingMeta exDB1 reqPag).getD ⟨0, 0, 0, 0⟩).totalPages
      = ((countTotal exDB1 reqPag + (5 : Int).toNat - 1) / (5 : Int).toNat : ℕ) ∧
    (pageItems exDB1 reqPag).getD []
      = (((sortedRows exDB1 reqPag).drop (((2 : Int) - 1) * 5).toNat).take (5 : Int).toNat).map
          formatListItem :=
  C9_pagination_bounds exDB1 reqPag 2 5 _ _ rfl rfl rfl

/-- With no dependent posts there are no dependent pain points. -/
theorem depPainPointIds_nil (s : DB) (id : String) (h : depPostIds s id = []) :
    depPainPointIds s id = [] := by
  rw [depPainPointIds, h]
  rw [List.map_eq_nil_iff, List.filter_eq_nil_iff]
  intro pp _
  cases hpid : pp.postId <;> simp

/-- C6: deleting an existing subreddit removes exactly the tag links of its
dependent pain points, those pain points, its posts and the subreddit row,
issuing the four DELETE statements in that order (blocks skipped when their
id list is empty); a subsequent GET returns NOT_FOUND; deleting an unknown
id returns NOT_FOUND without touching the state. -/
theorem C6_delete_cascade (s : DB) (id : String) :
    ((∃ sub ∈ s.subreddits, sub.id = id) →
      (subredditsDELETE s id).resp = .ok () ∧
      (∀ l, l ∈ (subredditsDELETE s id).db.painPointTags ↔
        l ∈ s.painPointTags ∧ l.painPointId ∉ depPainPointIds s id) ∧
      (∀ pp, pp ∈ (subredditsDELETE s id).db.painPoints ↔
        pp ∈ s.painPoints ∧ pp.id ∉ depPainPointIds s id) ∧
      (∀ p, p ∈ (subredditsDELETE s id).db.posts ↔
        p ∈ s.posts ∧ p.id ∉ depPostIds s id) ∧
      (∀ sub, sub ∈ (subredditsDELETE s id).db.subreddits ↔
        sub ∈ s.subreddits ∧ sub.id ≠ id) ∧
      subredditGET (subredditsDELETE s id).db id = .err "NOT_FOUND" ∧
      (depPostIds s id ≠ [] → depPainPointIds s id ≠ [] →
        (subredditsDELETE s id).trace =
          [.delTagLinks (depPainPointIds s id), .delPainPoints (depPainPointIds s id),
           .delPosts (depPostIds s id), .delSubreddit id]) ∧
      (depPostIds s id ≠ [] → depPainPointIds s id = [] →
        (subredditsDELETE s id).trace = [.delPosts (depPostIds s id), .delSubreddit id]) ∧
      (depPostIds s id = [] →
        (subredditsDELETE s id).trace = [.delSubreddit id])) ∧
    ((¬ ∃ sub ∈ s.subreddits, sub.id = id) →
      (subredditsDELETE s id).resp = .err "NOT_FOUND" ∧
      (subredditsDELETE s id).db = s ∧
      (subredditsDELETE s id).trace = []) := by
  have hexiff : (s.subreddits.filter (fun sub => sub.id == id)).isEmpty = true ↔
      ¬ ∃ sub ∈ s.subreddits, sub.id = id := by
    rw [List.isEmpty_iff, List.filter_eq_nil_iff]
    constructor
    · rintro h ⟨sub, hmem, heq⟩
      exact h sub hmem (by simp [heq])
    · intro h sub hmem hbeq
      exact h ⟨sub, hmem, by simpa using hbeq⟩
  constructor
  · intro hexists
    have hne : (s.subreddits.filter (fun sub => sub.id == id)).isEmpty = false := by
      rw [← Bool.not_eq_true]
      exact fun hb => hexiff.mp hb hexists
    have hget : ∀ t : DB, t.subreddits = s.subreddits.filter (fun sub => !(sub.id == id)) →
        subredditGET t id = .err "NOT_FOUND" := by
      intro t ht
      have hnil : (s.subreddits.filter (fun sub => !(sub.id == id))).filter
          (fun sub => sub.id == id) = [] := by
        rw [List.filter_eq_nil_iff]
        intro a ha
        rw [List.mem_filter] at ha
        simp only [Bool.not_eq_eq_eq_not, Bool.not_true, beq_eq_false_iff_ne] at ha
        simp only [beq_iff_eq]
        exact ha.2
      rw [subredditGET, ht, hnil]
    by_cases hpost : depPostIds s id = []
    · have hpp := depPainPointIds_nil s id hpost
      have hout : subredditsDELETE s id =
          ⟨.ok (), { s with subreddits := s.subreddits.filter (fun sub => !(sub.id == id)) },
            [.delSubreddit id]⟩ := by
        rw [subredditsDELETE]
        rw [if_neg (by simp [hne]), if_pos (by simp [hpost])]
      rw [hout]
      refine ⟨rfl, ?_, ?_, ?_, ?_, hget _ rfl, ?_, ?_, ?_⟩
      · intro l; simp [hpp]
      · intro pp; simp [hpp]
      · intro p; simp [hpost]
      · intro sub
        rw [List.mem_filter]
        simp
      · intro h; exact absurd hpost h
      · intro h; exact absurd hpost h
      · intro _; rfl
    · by_cases hppids : depPainPointIds s id = []
      · have hout : subredditsDELETE s id =
            ⟨.ok (),
              { s with
                posts := s.posts.filter (fun p => !((depPostIds s id).contains p.id))
                subreddits := s.subreddits.filter (fun sub => !(sub.id == id)) },
              [.delPosts (depPostIds s id), .delSubreddit id]⟩ := by
          rw [subredditsDELETE]
          rw [if_neg (by simp [hne]), if_neg (by simp [hpost]), if_pos (by simp [hppids])]
        rw [hout]
        refine ⟨rfl, ?_, ?_, ?_, ?_, hget _ rfl, ?_, ?_, ?_⟩
        · intro l; simp [hppids]
        · intro pp; simp [hppids]
        · intro p
          rw [List.mem_filter]
          simp
        · intro sub
          rw [List.mem_filter]
          simp
        · intro _ h; exact absurd hppids h
        · intro _ _; rfl
        · intro h; exact absurd h hpost
      · have hout : subredditsDELETE s id =
            ⟨.ok (),
              { s with
                painPointTags := s.painPointTags.filter
                  (fun l => !((depPainPointIds s id).contains l.painPointId))
                painPoints := s.painPoints.filter
                  (fun pp => !((depPainPointIds s id).contains pp.id))
                posts := s.posts.filter (fun p => !((depPostIds s id).contains p.id))
                subreddits := s.subreddits.filter (fun sub => !(sub.id == id)) },
              [.delTagLinks (depPainPointIds s id), .delPainPoints (depPainPointIds s id),
               .delPosts (depPostIds s id), .delSubreddit id]⟩ := by
          rw [subredditsDELETE]
          rw [if_neg (by simp [hne]), if_neg (by simp [hpost]), if_neg (by simp [hppids])]
        rw [hout]
        refine ⟨rfl, ?_, ?_, ?_, ?_, hget _ rfl, ?_, ?_, ?_⟩
        · intro l
          rw [List.mem_filter]
          simp
        · intro pp
          rw [List.mem_filter]
          simp
        · intro p
          rw [List.mem_filter]
          simp
        · intro sub
          rw [List.mem_filter]
          simp
        · intro _ _; rfl
        · intro _ h; exact absurd h hppids
        · intro h; exact absurd h hpost
  · intro hnone
    have hb : (s.subreddits.filter (fun sub => sub.id == id)).isEmpty = true :=
      hexiff.mpr hnone
    have hout : subredditsDELETE s id = ⟨.err "NOT_FOUND", s, []⟩ := by
      rw [subredditsDELETE, if_pos (by simp [hb])]
    rw [hout]
    exact ⟨rfl, rfl, rfl⟩

/-- State with one subreddit holding a post, a pain point and a tag link,
plus an unrelated subreddit/post/pain point/link. -/
def exDB6 : DB :=
  ⟨[subAlpha, subBeta], [postOne, postTwo], [ppAlpha, ppBeta], [], [],
    [⟨"pp1", "t1"⟩, ⟨"pp2", "t2"⟩]⟩

/-- C6 witness: the cascade applied to a concrete state, plus the
unknown-id case. -/
theorem C6_delete_witness :
    (subredditsDELETE exDB6 "s1").resp = .ok () ∧
    subredditGET (subredditsDELETE exDB6 "s1").db "s1" = .err "NOT_FOUND" ∧
    (subredditsDELETE exDB6 "s1").trace =
      [.delTagLinks (depPainPointIds exDB6 "s1"), .delPainPoints (depPainPointIds exDB6 "s1"),
       .delPosts (depPostIds exDB6 "s1"), .delSubreddit "s1"] ∧
    depPainPointIds exDB6 "s1" = ["pp1"] ∧
    depPostIds exDB6 "s1" = ["p1"] ∧
    (subredditsDELETE exDB6 "zzz").resp = .err "NOT_FOUND" ∧
    (subredditsDELETE exDB6 "zzz").db = exDB6 := by
  have h := (C6_delete_cascade exDB6 "s1").1 ⟨subAlpha, by decide, rfl⟩
  have h2 := (C6_delete_cascade exDB6 "zzz").2 (by decide)
  exact ⟨h.1, h.2.2.2.2.2.1, h.2.2.2.2.2.2.1 (by decide) (by decide), rfl, rfl, h2.1, h2.2.1⟩

/-- ASCII lower-casing fixes characters that are already lower-case word
characters. -/
theorem asciiLowerChar_fix (c : Char) (h : isLowerWordChar c = true) :
    asciiLowerChar c = c := by
  rw [asciiLowerChar, if_neg]
  simp only [isLowerWordChar, isDigitChar, Bool.or_eq_true, Bool.and_eq_true,
    decide_eq_true_eq, beq_iff_eq] at h
  intro hcontra
  simp only [Bool.and_eq_true, decide_eq_true_eq] at hcontra
  rcases h with (h | h) | h
  · omega
  · omega
  · subst h
    exact absurd hcontra (by decide)

/-- ASCII lower-casing sends every word character to a lower-case word
character. -/
theorem isLowerWordChar_asciiLowerChar (c : Char) (h : isWordChar c = true) :
    isLowerWordChar (asciiLowerChar c) = true := by
  rw [asciiLowerChar]
  by_cases hu : (65 ≤ c.toNat && c.toNat ≤ 90) = true
  · rw [if_pos hu]
    simp only [Bool.and_eq_true, decide_eq_true_eq] at hu
    generalize hn : c.toNat + 32 = n
    have h1 : 97 ≤ n := by omega
    have h2 : n ≤ 122 := by omega
    interval_cases n <;> decide
  · rw [if_neg hu]
    simp only [isWordChar, isDigitChar, Bool.or_eq_true, Bool.and_eq_true,
      decide_eq_true_eq, beq_iff_eq] at h
    simp only [Bool.and_eq_true, decide_eq_true_eq, not_and, not_le] at hu
    simp only [isLowerWordChar, isDigitChar, Bool.or_eq_true, Bool.and_eq_true,
      decide_eq_true_eq, beq_iff_eq]
    rcases h with ((h | h) | h) | h
    · omega
    · tauto
    · tauto
    · tauto

/-- Lower-casing a list of lower-case word characters is the identity. -/
theorem map_asciiLowerChar_fix : ∀ (l : List Char),
    l.all isLowerWordChar = true → l.map asciiLowerChar = l := by
  intro l h
  induction l with
  | nil => rfl
  | cons c cs ih =>
    rw [List.all_cons, Bool.and_eq_true] at h
    rw [List.map_cons, asciiLowerChar_fix c h.1, ih h.2]

/-- Lower-casing a string of lower-case word characters is the identity. -/
theorem asciiLower_fix (s : String) (h : s.data.all isLowerWordChar = true) :
    asciiLower s = s := by
  cases s with
  | mk data =>
    rw [asciiLower]
    exact congrArg String.mk (map_asciiLowerChar_fix data h)

/-- The lower-cased form of a word-character string consists of lower-case
word characters. -/
theorem asciiLower_all_lower (s : String) (h : s.data.all isWordChar = true) :
    (asciiLower s).data.all isLowerWordChar = true := by
  cases s with
  | mk data =>
    rw [asciiLower]
    rw [List.all_eq_true] at h ⊢
    intro c hc
    rw [List.mem_map] at hc
    obtain ⟨c0, hc0, hceq⟩ := hc
    rw [← hceq]
    exact isLowerWordChar_asciiLowerChar c0 (h c0 hc0)

/-- Lower-casing preserves being nonempty. -/
theorem asciiLower_ne_empty (s : String) (h : s ≠ "") : asciiLower s ≠ "" := by
  cases s with
  | mk data =>
    cases data with
    | nil => exact absurd rfl h
    | cons c cs =>
      rw [asciiLower]
      intro hcontra
      have : (List.map asciiLowerChar (c :: cs)) = [] := congrArg String.data hcontra
      simp at this

/-- C7: on a state whose stored names are all lower-case word strings (the
invariant every reachable state satisfies), creating a subreddit succeeds
for a name of `[a-zA-Z0-9_]+` with no case-insensitive duplicate, inserting
the lower-cased name; a name containing any other character fails with
INVALID_SUBREDDIT_NAME; a case-insensitive duplicate of a valid name fails
with SUBREDDIT_EXISTS; both failures leave the state unchanged. -/
theorem C7_create_subreddit (s : DB) (body : CreateBody) (newId now : String)
    (hinv : ∀ sub ∈ s.subreddits, sub.name.data.all isLowerWordChar = true) :
    (∀ name, body.name = some name → name ≠ "" → name.data.all isWordChar = true →
      (¬ ∃ sub ∈ s.subreddits, asciiLower sub.name = asciiLower name) →
      ∃ row, (subredditsPOST s body newId now).1 = .ok row ∧
        row.name = asciiLower name ∧
        (subredditsPOST s body newId now).2.subreddits = s.subreddits ++ [row]) ∧
    (∀ name, body.name = some name → (∃ c ∈ name.data, isWordChar c = false) →
      (subredditsPOST s body newId now).1 = .err "INVALID_SUBREDDIT_NAME" ∧
      (subredditsPOST s body newId now).2 = s) ∧
    (∀ name, body.name = some name → name ≠ "" → name.data.all isWordChar = true →
      (∃ sub ∈ s.subreddits, asciiLower sub.name = asciiLower name) →
      (subredditsPOST s body newId now).1 = .err "SUBREDDIT_EXISTS" ∧
      (subredditsPOST s body newId now).2 = s) := by
  have hlowfix : ∀ sub ∈ s.subreddits, asciiLower sub.name = sub.name :=
    fun sub hmem => asciiLower_fix sub.name (hinv sub hmem)
  refine ⟨?_, ?_, ?_⟩
  · intro name hname hne hword hnodup
    have hempty : (s.subreddits.filter (fun sub => sub.name == asciiLower name)).isEmpty
        = true := by
      rw [List.isEmpty_iff, List.filter_eq_nil_iff]
      intro sub hmem hbeq
      rw [beq_iff_eq] at hbeq
      exact hnodup ⟨sub, hmem, by rw [hlowfix sub hmem, hbeq]⟩
    rw [subredditsPOST, hname]
    dsimp only
    rw [if_neg hne, if_neg (by rw [hword]; exact fun hc => hc rfl)]
    rw [if_neg (by rw [hempty]; simp)]
    exact ⟨_, rfl, rfl, rfl⟩
  · intro name hname hbad
    obtain ⟨c, hcmem, hcfalse⟩ := hbad
    have hne : name ≠ "" := by
      intro hcontra
      subst hcontra
      exact absurd hcmem (by simp)
    have hword : name.data.all isWordChar ≠ true := by
      intro hall
      rw [List.all_eq_true] at hall
      rw [hall c hcmem] at hcfalse
      exact absurd hcfalse (by decide)
    rw [subredditsPOST, hname]
    dsimp only
    rw [if_neg hne, if_pos hword]
    exact ⟨rfl, rfl⟩
  · intro name hname hne hword hdup
    obtain ⟨sub, hmem, heq⟩ := hdup
    have hsubname : sub.name = asciiLower name := by
      rw [← hlowfix sub hmem, heq]
    have hnonempty : (s.subreddits.filter (fun sub => sub.name == asciiLower name)).isEmpty
        = false := by
      rw [← Bool.not_eq_true, List.isEmpty_iff]
      intro hcontra
      have : sub ∈ s.subreddits.filter (fun sub => sub.name == asciiLower name) := by
        rw [List.mem_filter]
        exact ⟨hmem, by rw [hsubname]; exact beq_self_eq_true _⟩
      rw [hcontra] at this
      exact absurd this (by simp)
    rw [subredditsPOST, hname]
    dsimp only
    rw [if_neg hne, if_neg (by rw [hword]; exact fun hc => hc rfl), if_pos hnonempty]
    exact ⟨rfl, rfl⟩

/-- Subreddit row stored with the lower-cased name `test_123`. -/
def subTest : Subreddit :=
  ⟨"s9", "test_123", none, none, true, "daily", 100, none, "2024-01-01 00:00:00",
    "2024-01-01 00:00:00"⟩

/-- C7 witness: creating `Test_123` on an empty state succeeds with the
lower-cased name; `test 123` (space) is rejected as invalid; `TEST_123` on a
state already holding `test_123` is rejected as existing. -/
theorem C7_create_witness :
    (∃ row, (subredditsPOST ⟨[], [], [], [], [], []⟩ (nameOnlyBody "Test_123") "id1" "t1").1
        = .ok row ∧
      row.name = asciiLower "Test_123" ∧
      (subredditsPOST ⟨[], [], [], [], [], []⟩ (nameOnlyBody "Test_123") "id1" "t1").2.subreddits
        = [] ++ [row]) ∧
    asciiLower "Test_123" = "test_123" ∧
    (subredditsPOST ⟨[], [], [], [], [], []⟩ (nameOnlyBody "test 123") "id1" "t1").1
      = .err "INVALID_SUBREDDIT_NAME" ∧
    (subredditsPOST ⟨[subTest], [], [], [], [], []⟩ (nameOnlyBody "TEST_123") "id1" "t1").1
      = .err "SUBREDDIT_EXISTS" ∧
    (subredditsPOST ⟨[subTest], [], [], [], [], []⟩ (nameOnlyBody "TEST_123") "id1" "t1").2
      = ⟨[subTest], [], [], [], [], []⟩ := by
  refine ⟨?_, rfl, ?_, ?_, ?_⟩
  · exact (C7_create_subreddit ⟨[], [], [], [], [], []⟩ (nameOnlyBody "Test_123") "id1" "t1"
      (by intro sub h; exact absurd h (by simp))).1 "Test_123" rfl (by decide) (by decide)
      (by rintro ⟨sub, hmem, _⟩; exact absurd hmem (by simp))
  · exact ((C7_create_subreddit ⟨[], [], [], [], [], []⟩ (nameOnlyBody "test 123") "id1" "t1"
      (by intro sub h; exact absurd h (by simp))).2.1 "test 123" rfl
      ⟨' ', by decide, by decide⟩).1
  · exact ((C7_create_subreddit ⟨[subTest], [], [], [], [], []⟩ (nameOnlyBody "TEST_123") "id1"
      "t1" (by decide)).2.2 "TEST_123" rfl (by decide) (by decide)
      ⟨subTest, by decide, by decide⟩).1
  · exact ((C7_create_subreddit ⟨[subTest], [], [], [], [], []⟩ (nameOnlyBody "TEST_123") "id1"
      "t1" (by decide)).2.2 "TEST_123" rfl (by decide) (by decide)
      ⟨subTest, by decide, by decide⟩).2

/-- Rows present after a POST: either an original row or the freshly
inserted row, whose name is the lower-cased validated request name. -/
theorem subredditsPOST_mem (s : DB) (body : CreateBody) (newId now : String)
    (sub : Subreddit) (hmem : sub ∈ (subredditsPOST s body newId now).2.subreddits) :
    sub ∈ s.subreddits ∨ ∃ name, body.name = some name ∧ name ≠ "" ∧
      name.data.all isWordChar = true ∧ sub.name = asciiLower name := by
  rcases hb : body.name with _ | name
  · rw [subredditsPOST, hb] at hmem
    exact Or.inl hmem
  · rw [subredditsPOST, hb] at hmem
    dsimp only at hmem
    split_ifs at hmem with h1 h2 h3
    all_goals first
      | exact Or.inl hmem
      | (dsimp only at hmem
         rw [List.mem_append] at hmem
         rcases hmem with hmem | hmem
         · exact Or.inl hmem
         · rw [List.mem_singleton] at hmem
           subst hmem
           exact Or.inr ⟨name, rfl, h1, h2, rfl⟩)

/-- Rows present after a DELETE were present before. -/
theorem subredditsDELETE_mem (s : DB) (id : String) (sub : Subreddit)
    (hmem : sub ∈ (subredditsDELETE s id).db.subreddits) : sub ∈ s.subreddits := by
  rw [subredditsDELETE] at hmem
  dsimp only at hmem
  split_ifs at hmem with h1 h2 h3 <;> dsimp only at hmem <;>
    first
      | exact hmem
      | exact (List.mem_filter.mp hmem).1

/-- PATCH preserves the list of stored subreddit names. -/
theorem subredditsPATCH_names (s : DB) (id : String) (body : PatchBody) (now : String) :
    (subredditsPATCH s id body now).2.subreddits.map (fun sub => sub.name)
      = s.subreddits.map (fun sub => sub.name) := by
  rw [subredditsPATCH]
  split_ifs with h1 h2 h3
  · rfl
  · rfl
  · rfl
  · dsimp only
    rw [List.map_map]
    apply List.map_congr_left
    intro a _
    dsimp only [Function.comp]
    split <;> rfl

/-- C10: every reachable state stores only nonempty lower-case word-character
names; PATCH never changes any stored name; hence, on reachable states,
checking for a row whose stored name equals the lower-cased candidate is
equivalent to a case-insensitive duplicate check. -/
theorem C10_lowercase_name_invariant :
    (∀ s : DB, Reach s → ∀ sub ∈ s.subreddits,
      sub.name ≠ "" ∧ sub.name.data.all isLowerWordChar = true) ∧
    (∀ (s : DB) (id : String) (body : PatchBody) (now : String),
      (subredditsPATCH s id body now).2.subreddits.map (fun sub => sub.name)
        = s.subreddits.map (fun sub => sub.name)) ∧
    (∀ s : DB, Reach s → ∀ cand : String,
      ((∃ sub ∈ s.subreddits, sub.name = asciiLower cand) ↔
        (∃ sub ∈ s.subreddits, asciiLower sub.name = asciiLower cand))) := by
  have hmain : ∀ s : DB, Reach s → ∀ sub ∈ s.subreddits,
      sub.name ≠ "" ∧ sub.name.data.all isLowerWordChar = true := by
    intro s hreach
    induction hreach with
    | init => intro sub h; exact absurd h (by simp)
    | create s0 body newId now _ ih =>
      intro sub hmem
      rcases subredditsPOST_mem s0 body newId now sub hmem with h | ⟨name, _, hne, hword, hsubname⟩
      · exact ih sub h
      · rw [hsubname]
        exact ⟨asciiLower_ne_empty name hne, asciiLower_all_lower name hword⟩
    | patch s0 id body now _ ih =>
      intro sub hmem
      have hnames : sub.name ∈ (subredditsPATCH s0 id body now).2.subreddits.map
          (fun sub => sub.name) := List.mem_map_of_mem _ hmem
      rw [subredditsPATCH_names] at hnames
      rw [List.mem_map] at hnames
      obtain ⟨sub0, hmem0, heq⟩ := hnames
      rw [← heq]
      exact ih sub0 hmem0
    | del s0 id _ ih =>
      intro sub hmem
      exact ih sub (subredditsDELETE_mem s0 id sub hmem)
    | pipeline s0 posts pps inds ts links _ ih =>
      intro sub hmem
      exact ih sub hmem
  refine ⟨hmain, fun s id body now => subredditsPATCH_names s id body now, ?_⟩
  intro s hreach cand
  constructor
  · rintro ⟨sub, hmem, heq⟩
    refine ⟨sub, hmem, ?_⟩
    rw [asciiLower_fix sub.name (hmain s hreach sub hmem).2]
    exact heq
  · rintro ⟨sub, hmem, heq⟩
    refine ⟨sub, hmem, ?_⟩
    rw [← asciiLower_fix sub.name (hmain s hreach sub hmem).2]
    exact heq

/-- State reached by creating `Test_123` on the empty database. -/
def reachedState : DB :=
  (subredditsPOST ⟨[], [], [], [], [], []⟩ (nameOnlyBody "Test_123") "id1" "t1").2

/-- C10 witness: the invariant and the duplicate-check equivalence at a
concrete reachable state. -/
theorem C10_invariant_witness :
    (∀ sub ∈ reachedState.subreddits,
      sub.name ≠ "" ∧ sub.name.data.all isLowerWordChar = true) ∧
    (∀ cand : String,
      ((∃ sub ∈ reachedState.subreddits, sub.name = asciiLower cand) ↔
        (∃ sub ∈ reachedState.subreddits, asciiLower sub.name = asciiLower cand))) :=
  ⟨C10_lowercase_name_invariant.1 reachedState (Reach.create _ _ _ _ Reach.init),
   fun cand => C10_lowercase_name_invariant.2.2 reachedState
     (Reach.create _ _ _ _ Reach.init) cand⟩
